import Mathlib

/-!
Verification development for the Chamfer matching engine
(`Chamfer/src/Chamfer.cpp`).

The C++ source is shallowly embedded below.  Conventions used throughout:

* `float`/`double` values are modelled by `ℚ` extended with the IEEE
  special values (`FVal.inf`, `FVal.ninf`, `FVal.nan`), so that the
  division `chamfer_dist / nbElements` can be modelled faithfully,
  including the `0.0 / 0` case.
* `cv::Mat` scalar fields are modelled as functions `ℤ → ℤ → ℚ`
  (value at row `y`, column `x`, matching `.at<float>(y, x)` resp.
  `.ptr<float>(y)[x]`), together with the explicit row/column counts
  that the source reads via `.rows` / `.cols`.
* `std::map` is modelled by an association list ordered by key, the
  iteration order of the C++ container.
* External collaborators (OpenCV routines such as `cv::LineIterator`,
  `cv::Canny`, `cv::distanceTransform`, and the helper
  `getMinAngleError` from the missing `Utils.hpp` header) are taken as
  function parameters; the engine code embedded here never depends on
  their internals.
-/

/-- Integer pixel coordinate, embedding `cv::Point`. -/
structure Pt where
  x : ℤ
  y : ℤ
deriving DecidableEq, Repr

/-- Embedding of `cv::Rect` (integer rectangle). -/
structure CvRect where
  x : ℤ
  y : ℤ
  width : ℤ
  height : ℤ
deriving DecidableEq, Repr

/-- Embedding of `Line_info_t` as used by `computeChamferDistance`:
only the two endpoints of the approximated segment are read there. -/
structure Line_info_t where
  m_pointStart : Pt
  m_PointEnd : Pt
deriving DecidableEq, Repr

/-- Model of a C `float`/`double` value: a finite rational or one of the
IEEE special values produced by dividing by zero. -/
inductive FVal where
  | fin (q : ℚ)
  | inf
  | ninf
  | nan
deriving DecidableEq, Repr

/-- IEEE `<` comparison on modelled floats: any comparison with NaN is
false, `-inf` is below every finite value and `+inf` above. -/
def FVal.ltb : FVal → FVal → Bool
  | .fin a, .fin b => Rat.blt a b
  | .fin _, .inf => true
  | .ninf, .fin _ => true
  | .ninf, .inf => true
  | _, _ => false

/-- Model of the C++ expression `chamfer_dist / nbElements` (a `double`
divided by an `int`): `0.0 / 0` is NaN and `s / 0` with `s ≠ 0` is a
signed infinity. -/
def fdiv (s : ℚ) (n : ℕ) : FVal :=
  if n = 0 then (if s = 0 then FVal.nan else if 0 < s then FVal.inf else FVal.ninf)
  else FVal.fin (s / n)

/-- IEEE addition on modelled floats (used by `groupDetections` when it
averages the costs of a cluster). -/
def FVal.add : FVal → FVal → FVal
  | .nan, _ => .nan
  | _, .nan => .nan
  | .inf, .ninf => .nan
  | .ninf, .inf => .nan
  | .inf, _ => .inf
  | _, .inf => .inf
  | .ninf, _ => .ninf
  | _, .ninf => .ninf
  | .fin a, .fin b => .fin (a + b)

/-- Division of a modelled float by a natural number. -/
def FVal.divNat : FVal → ℕ → FVal
  | .fin a, n => fdiv a n
  | .inf, _ => .inf
  | .ninf, _ => .ninf
  | .nan, _ => .nan

/-- The value `std::numeric_limits<float>::max()`, exactly
`(2^24 - 1) * 2^104`. -/
def fltMax : FVal := FVal.fin ((2 ^ 24 - 1) * 2 ^ 104)

/-- The matching-type enumeration dispatched over in
`computeMatchingMap`, `computeChamferDistance` and
`computeFullChamferDistance`. -/
inductive MatchingType where
  | edgeMatching
  | edgeForwardBackwardMatching
  | fullMatching
  | maskMatching
  | forwardBackwardMaskMatching
  | lineMatching
  | lineForwardBackwardMatching
deriving DecidableEq, Repr

/-- The search-strategy enumeration (`m_matchingStrategyType`). -/
inductive MatchingStrategyType where
  | templateMatching
  | templatePoseMatching
deriving DecidableEq, Repr

/-- The candidate-rejection enumeration (`m_rejectionType`). -/
inductive RejectionType where
  | gridDescriptorRejection
  | noRejection
deriving DecidableEq, Repr

/-- Embedding of `Template_info_t`: the fields of the template
representation read by the matching engine. -/
structure Template_info_t where
  m_contours : List (List Pt)
  m_distImg : ℤ → ℤ → ℚ
  m_distImgRows : ℤ
  m_distImgCols : ℤ
  m_edgesOrientation : List (List ℚ)
  m_gridDescriptorsLocations : List Pt
  m_gridDescriptors : List (ℚ × ℚ)
  m_mapOfEdgeOrientation : ℤ → ℤ → ℚ
  m_mask : ℤ → ℤ → Bool
  m_queryROI : CvRect
  m_templateLocation : CvRect
  m_vectorOfContourLines : List (List Line_info_t)

/-- Embedding of `Query_info_t`: the fields of the query representation
read by the matching engine. -/
structure Query_info_t where
  m_contours : List (List Pt)
  m_distImg : ℤ → ℤ → ℚ
  m_distImgRows : ℤ
  m_distImgCols : ℤ
  m_edgesOrientation : List (List ℚ)
  m_mapOfEdgeOrientation : ℤ → ℤ → ℚ
  m_mask : ℤ → ℤ → Bool
  m_vectorOfContourLines : List (List Line_info_t)

/-- Forward edge-matching contribution of one template contour point
(paired with its stored orientation), as accumulated by the first loop
of `computeChamferDistance`. -/
def edgeFwdContribution (q : Query_info_t) (offsetX offsetY : ℤ) (useOrientation : Bool)
    (lam weight_forward : ℚ) (angErr : ℚ → ℚ → ℚ) (po : Pt × ℚ) : ℚ :=
  if useOrientation then
    weight_forward * (q.m_distImg (po.1.y + offsetY) (po.1.x + offsetX)
      + lam * angErr po.2 (q.m_mapOfEdgeOrientation (po.1.y + offsetY) (po.1.x + offsetX)))
  else
    weight_forward * q.m_distImg (po.1.y + offsetY) (po.1.x + offsetX)

/-- Backward edge-matching contribution of one query contour point, as
accumulated by the `edgeForwardBackwardMatching` loop of
`computeChamferDistance`.  Mirrors the source exactly: the contribution
is only added when the point lies in the template footprint, the
orientation-enabled branch reads the template fields at the
offset-corrected coordinate `(y - offsetY, x - offsetX)`, while the
orientation-disabled branch reads `template_info.m_distImg.ptr<float>(y)[x]`,
i.e. the uncorrected coordinate. -/
def edgeBwdContribution (t : Template_info_t) (offsetX offsetY : ℤ) (useOrientation : Bool)
    (lam weight_backward : ℚ) (angErr : ℚ → ℚ → ℚ) (po : Pt × ℚ) : ℚ :=
  if offsetX ≤ po.1.x ∧ po.1.x < offsetX + t.m_distImgCols
      ∧ offsetY ≤ po.1.y ∧ po.1.y < offsetY + t.m_distImgRows then
    (if useOrientation then
      weight_backward * (t.m_distImg (po.1.y - offsetY) (po.1.x - offsetX)
        + lam * angErr po.2 (t.m_mapOfEdgeOrientation (po.1.y - offsetY) (po.1.x - offsetX)))
    else
      weight_backward * t.m_distImg po.1.y po.1.x)
  else 0

/-- Accumulation of `(chamfer_dist, nbElements)` over the points of one
contour.  `countIncrement` records whether the loop header increments
`nbElements` (`j++, nbElements++`) or leaves it unchanged (the
backward pass is written `j++, nbElements`, a no-op). -/
def accumPoints (f : Pt × ℚ → ℚ) (countIncrement : Bool) (acc : ℚ × ℕ)
    (points : List (Pt × ℚ)) : ℚ × ℕ :=
  points.foldl (fun a po => (a.1 + f po, if countIncrement then a.2 + 1 else a.2)) acc

/-- Accumulation of `(chamfer_dist, nbElements)` over all contours,
pairing `contours[i][j]` with `edgesOrientation[i][j]` as the source
indexes both by `(i, j)`. -/
def accumContours (f : Pt × ℚ → ℚ) (countIncrement : Bool) (contours : List (List Pt))
    (orientations : List (List ℚ)) (acc : ℚ × ℕ) : ℚ × ℕ :=
  (contours.zip orientations).foldl
    (fun a co => accumPoints f countIncrement a (co.1.zip co.2)) acc

/-- Forward line-matching contribution of one rasterized line pixel.
As in the source, the line branches read both fields at
`it_line.pos()` without applying the candidate offset. -/
def lineFwdContribution (t : Template_info_t) (q : Query_info_t) (useOrientation : Bool)
    (lam weight_forward : ℚ) (angErr : ℚ → ℚ → ℚ) (pos : Pt) : ℚ :=
  if useOrientation then
    weight_forward * (q.m_distImg pos.y pos.x
      + lam * angErr (t.m_mapOfEdgeOrientation pos.y pos.x) (q.m_mapOfEdgeOrientation pos.y pos.x))
  else
    weight_forward * q.m_distImg pos.y pos.x

/-- Backward line-matching contribution of one rasterized line pixel. -/
def lineBwdContribution (t : Template_info_t) (q : Query_info_t) (useOrientation : Bool)
    (lam weight_backward : ℚ) (angErr : ℚ → ℚ → ℚ) (pos : Pt) : ℚ :=
  if useOrientation then
    weight_backward * (t.m_distImg pos.y pos.x
      + lam * angErr (q.m_mapOfEdgeOrientation pos.y pos.x) (t.m_mapOfEdgeOrientation pos.y pos.x))
  else
    weight_backward * t.m_distImg pos.y pos.x

/-- Accumulation of `(chamfer_dist, nbElements)` over the pixels of one
rasterized line (`cv::LineIterator`); here `nbElements` is incremented
per pixel in both line passes. -/
def accumLinePoints (f : Pt → ℚ) (acc : ℚ × ℕ) (points : List Pt) : ℚ × ℕ :=
  points.foldl (fun a pos => (a.1 + f pos, a.2 + 1)) acc

/-- Accumulation over all approximated contour lines; `lineIter` models
the external `cv::LineIterator` rasterization collaborator. -/
def accumContourLines (f : Pt → ℚ) (lineIter : Pt → Pt → List Pt)
    (contourLines : List (List Line_info_t)) (acc : ℚ × ℕ) : ℚ × ℕ :=
  contourLines.foldl
    (fun a lines => lines.foldl
      (fun a2 line => accumLinePoints f a2 (lineIter line.m_pointStart line.m_PointEnd)) a) acc

/-- Embedding of `ChamferMatcher::computeChamferDistance`.  `angErr`
models `getMinAngleError(·, ·, false, true)` from the repository header
`Utils.hpp` (not part of the provided sources) and `lineIter` models the
`cv::LineIterator` collaborator. -/
def computeChamferDistance (matchingType : MatchingType) (t : Template_info_t)
    (q : Query_info_t) (angErr : ℚ → ℚ → ℚ) (lineIter : Pt → Pt → List Pt)
    (offsetX offsetY : ℤ) (useOrientation : Bool) (lam weight_forward weight_backward : ℚ) :
    FVal :=
  if matchingType = MatchingType.lineMatching
      ∨ matchingType = MatchingType.lineForwardBackwardMatching then
    let acc1 := accumContourLines (lineFwdContribution t q useOrientation lam weight_forward angErr)
      lineIter t.m_vectorOfContourLines (0, 0)
    let acc2 := if matchingType = MatchingType.lineForwardBackwardMatching then
        accumContourLines (lineBwdContribution t q useOrientation lam weight_backward angErr)
          lineIter q.m_vectorOfContourLines acc1
      else acc1
    fdiv acc2.1 acc2.2
  else
    let acc1 := accumContours (edgeFwdContribution q offsetX offsetY useOrientation lam weight_forward angErr)
      true t.m_contours t.m_edgesOrientation (0, 0)
    let acc2 := if matchingType = MatchingType.edgeForwardBackwardMatching then
        accumContours (edgeBwdContribution t offsetX offsetY useOrientation lam weight_backward angErr)
          false q.m_contours q.m_edgesOrientation acc1
      else acc1
    fdiv acc2.1 acc2.2

/-- Sum of a rational-valued function over the `rows × cols` pixel grid
(used to embed `cv::sum` over `cv::absdiff` results). -/
def rectSumQ (rows cols : ℕ) (f : ℕ → ℕ → ℚ) : ℚ :=
  ((List.range rows).map (fun i => ((List.range cols).map (fun j => f i j)).sum)).sum

/-- Number of grid cells on which a boolean mask is set (embedding
`cv::countNonZero`). -/
def rectCountB (rows cols : ℕ) (f : ℕ → ℕ → Bool) : ℕ :=
  ((List.range rows).map (fun i => ((List.range cols).filter (fun j => f i j)).length)).sum

/-- The common mask used by the masked branches of
`computeFullChamferDistance`: the template mask, or its union with the
query sub-window mask for `forwardBackwardMaskMatching`. -/
def commonMask (matchingType : MatchingType) (t : Template_info_t) (q : Query_info_t)
    (offsetX offsetY : ℤ) (i j : ℤ) : Bool :=
  t.m_mask i j
    || (if matchingType = MatchingType.forwardBackwardMaskMatching
        then q.m_mask (i + offsetY) (j + offsetX) else false)

/-- Embedding of `ChamferMatcher::computeFullChamferDistance`: the
full-field branch sums absolute differences over the whole template
window, the masked branches restrict both operands to the common mask
first (pixels outside the mask are copied as zero, exactly as
`copyTo` with a mask produces) and divide by `cv::countNonZero` of the
mask. -/
def computeFullChamferDistance (matchingType : MatchingType) (t : Template_info_t)
    (q : Query_info_t) (offsetX offsetY : ℤ) (useOrientation : Bool) (lam : ℚ) : FVal :=
  let rows := t.m_distImgRows.toNat
  let cols := t.m_distImgCols.toNat
  if matchingType = MatchingType.fullMatching then
    let distSum := rectSumQ rows cols
      (fun i j => |q.m_distImg ((i : ℤ) + offsetY) ((j : ℤ) + offsetX) - t.m_distImg i j|)
    let oriSum := if useOrientation then
        lam * rectSumQ rows cols
          (fun i j => |q.m_mapOfEdgeOrientation ((i : ℤ) + offsetY) ((j : ℤ) + offsetX)
            - t.m_mapOfEdgeOrientation i j|)
      else 0
    fdiv (distSum + oriSum) (rows * cols)
  else
    let cm := fun (i j : ℤ) => commonMask matchingType t q offsetX offsetY i j
    let distSum := rectSumQ rows cols
      (fun i j => |(if cm i j then q.m_distImg ((i : ℤ) + offsetY) ((j : ℤ) + offsetX) else 0)
        - (if cm i j then t.m_distImg i j else 0)|)
    let oriSum := if useOrientation then
        lam * rectSumQ rows cols
          (fun i j => |(if cm i j then q.m_mapOfEdgeOrientation ((i : ℤ) + offsetY) ((j : ℤ) + offsetX) else 0)
            - (if cm i j then t.m_mapOfEdgeOrientation i j else 0)|)
      else 0
    fdiv (distSum + oriSum) (rectCountB rows cols (fun i j => cm i j))

/-- Embedding of `Detection_t`: bounding box, Chamfer cost, scale and
template index.  The constructor used in `detect_impl` leaves the
template index at its unassigned value `-1` (the spec calls this
"unassigned before merge"; the header with the default is not among the
provided sources). -/
structure Detection_t where
  m_boundingBox : CvRect
  m_chamferDist : FVal
  m_scale : ℚ
  m_templateIndex : ℤ
deriving DecidableEq, Repr

/-- Cost map produced by `computeMatchingMap`: `height × width` cells
stored row-major, exactly the layout of the `CV_32F` matrix. -/
structure CostMap where
  width : ℤ
  height : ℤ
  cells : List FVal
deriving Repr

/-- Bundle of the `ChamferMatcher` configuration members read by the
matching engine. -/
structure MatcherParams where
  m_maxDescriptorDistanceError : ℚ
  m_maxDescriptorOrientationError : ℚ
  m_minNbDescriptorMatches : ℕ
  m_matchingStrategyType : MatchingStrategyType
  m_matchingType : MatchingType
  m_rejectionType : RejectionType

/-- Number of grid descriptors of the template matching the query at
candidate offset `(j, i)` (the inner counting loop of the rejection
stage of `computeMatchingMap`). -/
def nbDescriptorMatches (p : MatcherParams) (t : Template_info_t) (q : Query_info_t)
    (i j : ℤ) : ℕ :=
  ((t.m_gridDescriptorsLocations.zip t.m_gridDescriptors).filter (fun ld =>
    decide (|q.m_distImg (ld.1.y + i) (ld.1.x + j) - ld.2.1| < p.m_maxDescriptorDistanceError)
      && decide (|q.m_mapOfEdgeOrientation (ld.1.y + i) (ld.1.x + j) - ld.2.2|
        < p.m_maxDescriptorOrientationError))).length

/-- Whether the loop `for (v = start; v < stop; v += step)` visits `v`
(for positive `step`). -/
def strideHits (start stop step v : ℤ) : Bool :=
  decide (start ≤ v) && decide (v < stop) && decide ((v - start) % step = 0)

/-- Whether the rejection mask of `computeMatchingMap` is zero at cell
`(i, j)`: only when grid-descriptor rejection is enabled and the match
count falls below `m_minNbDescriptorMatches`. -/
def rejectedCell (p : MatcherParams) (t : Template_info_t) (q : Query_info_t)
    (i j : ℤ) : Bool :=
  (if p.m_rejectionType = RejectionType.gridDescriptorRejection then
    decide (nbDescriptorMatches p t q i j < p.m_minNbDescriptorMatches)
  else false)

/-- Vertical start of the search bounds of `computeMatchingMap`. -/
def boundStartI (p : MatcherParams) (t : Template_info_t) : ℤ :=
  if p.m_matchingStrategyType = MatchingStrategyType.templatePoseMatching then
    t.m_templateLocation.y
  else t.m_queryROI.y

/-- Vertical end of the search bounds of `computeMatchingMap`. -/
def boundEndI (p : MatcherParams) (t : Template_info_t) (chamferMapHeight : ℤ) : ℤ :=
  if p.m_matchingStrategyType = MatchingStrategyType.templatePoseMatching then
    t.m_templateLocation.y + 1
  else if t.m_queryROI.height > 0 then t.m_queryROI.y + t.m_queryROI.height
  else chamferMapHeight

/-- Horizontal start of the search bounds of `computeMatchingMap`. -/
def boundStartJ (p : MatcherParams) (t : Template_info_t) : ℤ :=
  if p.m_matchingStrategyType = MatchingStrategyType.templatePoseMatching then
    t.m_templateLocation.x
  else t.m_queryROI.x

/-- Horizontal end of the search bounds of `computeMatchingMap`. -/
def boundEndJ (p : MatcherParams) (t : Template_info_t) (chamferMapWidth : ℤ) : ℤ :=
  if p.m_matchingStrategyType = MatchingStrategyType.templatePoseMatching then
    t.m_templateLocation.x + 1
  else if t.m_queryROI.width > 0 then t.m_queryROI.x + t.m_queryROI.width
  else chamferMapWidth

/-- The cost written by the main loop of `computeMatchingMap` at an
accepted cell: the `switch (m_matchingType)` dispatch between
`computeChamferDistance` and `computeFullChamferDistance`. -/
def matchingMapCellCost (p : MatcherParams) (t : Template_info_t) (q : Query_info_t)
    (angErr : ℚ → ℚ → ℚ) (lineIter : Pt → Pt → List Pt) (useOrientation : Bool)
    (lam weight_forward weight_backward : ℚ) (i j : ℤ) : FVal :=
  match p.m_matchingType with
  | MatchingType.edgeMatching =>
      computeChamferDistance p.m_matchingType t q angErr lineIter j i useOrientation
        lam weight_forward weight_backward
  | MatchingType.edgeForwardBackwardMatching =>
      computeChamferDistance p.m_matchingType t q angErr lineIter j i useOrientation
        lam weight_forward weight_backward
  | _ =>
      computeFullChamferDistance p.m_matchingType t q j i useOrientation lam

/-- Value of cell `(i, j)` of the finished cost map: cells visited by
the strided double loop inside the search bounds and not rejected hold
the evaluated cost, all others keep the `FLT_MAX` initialization. -/
def matchingMapCell (p : MatcherParams) (t : Template_info_t) (q : Query_info_t)
    (angErr : ℚ → ℚ → ℚ) (lineIter : Pt → Pt → List Pt) (useOrientation : Bool)
    (xStep yStep : ℤ) (lam weight_forward weight_backward : ℚ)
    (chamferMapWidth chamferMapHeight : ℤ) (i j : ℤ) : FVal :=
  if strideHits (boundStartI p t) (boundEndI p t chamferMapHeight) yStep i
      && strideHits (boundStartJ p t) (boundEndJ p t chamferMapWidth) xStep j
      && !rejectedCell p t q i j then
    matchingMapCellCost p t q angErr lineIter useOrientation lam weight_forward weight_backward i j
  else fltMax

/-- Embedding of `ChamferMatcher::computeMatchingMap`.  When the
template is wider or taller than the query the map dimensions are
non-positive and the function returns without touching the output
matrix, leaving it empty — modelled by `none`. -/
def computeMatchingMap (p : MatcherParams) (t : Template_info_t) (q : Query_info_t)
    (angErr : ℚ → ℚ → ℚ) (lineIter : Pt → Pt → List Pt) (useOrientation : Bool)
    (xStep yStep : ℤ) (lam weight_forward weight_backward : ℚ) : Option CostMap :=
  let chamferMapWidth := q.m_distImgCols - t.m_distImgCols + 1
  let chamferMapHeight := q.m_distImgRows - t.m_distImgRows + 1
  if chamferMapWidth ≤ 0 ∨ chamferMapHeight ≤ 0 then none
  else some
    { width := chamferMapWidth
      height := chamferMapHeight
      cells := (List.range chamferMapHeight.toNat).flatMap (fun i =>
        (List.range chamferMapWidth.toNat).map (fun j =>
          matchingMapCell p t q angErr lineIter useOrientation xStep yStep
            lam weight_forward weight_backward chamferMapWidth chamferMapHeight i j)) }

/-- Model of `cv::minMaxLoc` restricted to what `detect_impl` uses: the
minimum value and its first row-major position, computed by a forward
scan that replaces the current minimum only on a strictly smaller
value. -/
def minLocGo (cells : List FVal) (idx : ℕ) (curV : FVal) (curI : ℕ) : FVal × ℕ :=
  match cells with
  | [] => (curV, curI)
  | v :: rest =>
      if FVal.ltb v curV then minLocGo rest (idx + 1) v idx
      else minLocGo rest (idx + 1) curV curI

/-- Minimum entry of a cost map (`cv::minMaxLoc`); `none` on an empty
cell list. -/
def minMaxLocMin : List FVal → Option (FVal × ℕ)
  | [] => none
  | v :: rest => some (minLocGo rest 1 v 0)

/-- Detection constructed by `detect_impl` at the extracted minimum:
`pt1` is the minimum location, `pt2 = pt1 + (cols, rows)`, so the
bounding box has the template size. -/
def mkDetection (w : ℤ) (t : Template_info_t) (scale : ℚ) (idx : ℕ) (v : FVal) : Detection_t :=
  { m_boundingBox :=
      { x := (idx : ℤ) % w
        y := (idx : ℤ) / w
        width := t.m_distImgCols
        height := t.m_distImgRows }
    m_chamferDist := v
    m_scale := scale
    m_templateIndex := -1 }

/-- The iteration cap of the extraction loop in `detect_impl`
(`int maxLoopIterations = 100`). -/
def maxLoopIterations : ℕ := 100

/-- Embedding of the do-while minimum-extraction loop of `detect_impl`.
Each pass extracts the minimum cell, overwrites it with `FLT_MAX`,
emits a detection when the minimum beats the threshold, and continues
while the threshold held and further passes remain (`remaining` counts
the loop-condition successes still allowed, so a call with
`remaining = maxLoopIterations` performs at most
`maxLoopIterations + 1` passes, matching
`do { iteration++; ... } while (minVal < distanceThresh && iteration <= maxLoopIterations)`). -/
def extractLoopGo (w : ℤ) (t : Template_info_t) (scale : ℚ) (cells : List FVal)
    (distanceThresh : ℚ) (remaining : ℕ) : List Detection_t :=
  match minMaxLocMin cells with
  | none => []
  | some (v, idx) =>
      let cells2 := cells.set idx fltMax
      if FVal.ltb v (FVal.fin distanceThresh) then
        mkDetection w t scale idx v ::
          (match remaining with
           | 0 => []
           | Nat.succ r2 => extractLoopGo w t scale cells2 distanceThresh r2)
      else []

/-- Overlap fraction between two rectangles as computed by
`groupDetections`: intersection area over union area, with IEEE
semantics for the double division. -/
def rectIntersect (a b : CvRect) : CvRect :=
  let x := max a.x b.x
  let y := max a.y b.y
  let w := min (a.x + a.width) (b.x + b.width) - x
  let h := min (a.y + a.height) (b.y + b.height) - y
  if w ≤ 0 ∨ h ≤ 0 then { x := 0, y := 0, width := 0, height := 0 }
  else { x := x, y := y, width := w, height := h }

/-- Area of a `cv::Rect`. -/
def rectArea (r : CvRect) : ℤ := r.width * r.height

/-- Division of two doubles with IEEE semantics (used for the
overlapping percentage in `groupDetections`). -/
def fdivQ (s d : ℚ) : FVal :=
  if d = 0 then (if s = 0 then FVal.nan else if 0 < s then FVal.inf else FVal.ninf)
  else FVal.fin (s / d)

/-- The overlapping percentage test of `groupDetections`:
`r_intersect.area() / (area1 + area2 - r_intersect.area()) > overlapPercentage`. -/
def overlapAbove (a b : Detection_t) (overlapPercentage : ℚ) : Bool :=
  let inter := rectArea (rectIntersect a.m_boundingBox b.m_boundingBox)
  FVal.ltb (FVal.fin overlapPercentage)
    (fdivQ (inter : ℚ)
      ((rectArea a.m_boundingBox + rectArea b.m_boundingBox - inter : ℤ) : ℚ))

/-- Greedy clustering pass of `groupDetections`: the first unpicked
detection absorbs every later unpicked detection whose overlap
percentage with it exceeds the threshold. -/
def clusterDetections (overlapPercentage : ℚ) : List Detection_t → List (List Detection_t)
  | [] => []
  | d :: rest =>
      let parts := rest.partition (fun d2 => overlapAbove d d2 overlapPercentage)
      (d :: parts.1) :: clusterDetections overlapPercentage parts.2
termination_by l => l.length
decreasing_by
  simp only [List.partition_eq_filter_filter]
  exact Nat.lt_succ_of_le (List.length_filter_le _ _)

/-- Truncation of a rational toward zero, the conversion applied when
the `double` means are stored back into the integer `cv::Rect`. -/
def truncQ (q : ℚ) : ℤ := Int.tdiv q.num (q.den : ℤ)

/-- Representative index of a cluster: the template index with the most
occurrences, scanned in increasing index order starting from `(-1, 0)`,
replaced only on a strictly larger count. -/
def maxOccurrenceIndex (c : List Detection_t) : ℤ :=
  let keys := (List.insertionSort (fun a b : ℤ => a ≤ b) (c.map Detection_t.m_templateIndex)).dedup
  (keys.foldl (fun acc k =>
    let occ := (c.filter (fun d => d.m_templateIndex = k)).length
    if acc.2 < occ then (k, occ) else acc) ((-1 : ℤ), (0 : ℕ))).1

/-- Collapse of one cluster into a single detection: mean position (box
keeps the first member dimensions), mean cost, mean scale, majority
template index. -/
def collapseCluster (c : List Detection_t) : Detection_t :=
  match c with
  | [] => { m_boundingBox := { x := 0, y := 0, width := 0, height := 0 },
            m_chamferDist := FVal.fin 0, m_scale := 0, m_templateIndex := -1 }
  | d0 :: _ =>
      let n := c.length
      { m_boundingBox :=
          { x := truncQ ((c.map (fun d => (d.m_boundingBox.x : ℚ))).sum / n)
            y := truncQ ((c.map (fun d => (d.m_boundingBox.y : ℚ))).sum / n)
            width := d0.m_boundingBox.width
            height := d0.m_boundingBox.height }
        m_chamferDist := FVal.divNat ((c.map Detection_t.m_chamferDist).foldl FVal.add (FVal.fin 0)) n
        m_scale := (c.map Detection_t.m_scale).sum / n
        m_templateIndex := maxOccurrenceIndex c }

/-- Embedding of `ChamferMatcher::groupDetections`. -/
def groupDetections (detections : List Detection_t) (overlapPercentage : ℚ) :
    List Detection_t :=
  (clusterDetections overlapPercentage detections).map collapseCluster

/-- Default overlap threshold of `groupDetections`.  Modelled from the
spec: the declaration with the default argument lives in the header,
which is not among the provided sources; the spec gives 0.5. -/
def defaultOverlapPercentage : ℚ := 1 / 2

/-- Cost ordering used to sort detections (`operator<` on
`Detection_t`).  Modelled from the spec: detections order by ascending
cost; the header defining the comparator is not among the provided
sources.  `costLe a b` holds when `b` is not strictly below `a`. -/
def costLe (a b : Detection_t) : Prop :=
  FVal.ltb b.m_chamferDist a.m_chamferDist = false

instance : DecidableRel costLe := fun a b => by
  unfold costLe
  infer_instance

/-- Sorting of a detection list by ascending cost (`std::sort`). -/
def sortDetections (detections : List Detection_t) : List Detection_t :=
  List.insertionSort costLe detections

/-- Embedding of `ChamferMatcher::detect_impl`: compute the cost map at
stride 5, and if it is non-empty extract minima, optionally group, and
sort by increasing cost. -/
def detect_impl (p : MatcherParams) (t : Template_info_t) (q : Query_info_t)
    (scale : ℚ) (angErr : ℚ → ℚ → ℚ) (lineIter : Pt → Pt → List Pt)
    (useOrientation : Bool) (distanceThresh lam weight_forward weight_backward : ℚ)
    (useGroupDetections : Bool) : List Detection_t :=
  match computeMatchingMap p t q angErr lineIter useOrientation 5 5
      lam weight_forward weight_backward with
  | none => []
  | some m =>
      let all_detections := extractLoopGo m.width t scale m.cells distanceThresh maxLoopIterations
      let currentDetections :=
        if useGroupDetections then groupDetections all_detections defaultOverlapPercentage
        else all_detections
      sortDetections currentDetections

/-- Area ordering used by `nonMaximaSuppression` (`less_than_area`).
Modelled from the spec: sort detections by box area ascending; the
comparator lives in the header, which is not among the provided
sources. -/
def areaLe (a b : Detection_t) : Prop :=
  rectArea a.m_boundingBox ≤ rectArea b.m_boundingBox

instance : DecidableRel areaLe := fun a b => by
  unfold areaLe
  infer_instance

instance : IsTotal Detection_t areaLe :=
  ⟨fun a b => le_total (rectArea a.m_boundingBox) (rectArea b.m_boundingBox)⟩

instance : IsTrans Detection_t areaLe :=
  ⟨fun _ _ _ h1 h2 => le_trans h1 h2⟩

/-- The strict containment test of `nonMaximaSuppression`
(line `r1.x+r1.width < r2.x+r2.width && r1.x > r2.x && ...`). -/
def strictlyInsideRect (r1 r2 : CvRect) : Bool :=
  decide (r1.x + r1.width < r2.x + r2.width) && decide (r1.x > r2.x)
    && decide (r1.y + r1.height < r2.y + r2.height) && decide (r1.y > r2.y)

/-- Suppression pass of `nonMaximaSuppression` over the area-sorted
list: a detection is discarded when its box is strictly inside the box
of any later (larger-area) detection. -/
def nmsFilter : List Detection_t → List Detection_t
  | [] => []
  | d :: rest =>
      if rest.any (fun d2 => strictlyInsideRect d.m_boundingBox d2.m_boundingBox) then
        nmsFilter rest
      else d :: nmsFilter rest

/-- Embedding of `ChamferMatcher::nonMaximaSuppression`. -/
def nonMaximaSuppression (detections : List Detection_t) : List Detection_t :=
  nmsFilter (List.insertionSort areaLe detections)

/-- Embedding of an 8-bit `cv::Mat` image as stored by the template
persistence code: dimensions, channel count and the raw byte buffer
(row-major, channel-interleaved). -/
structure CvImage where
  rows : ℤ
  cols : ℤ
  channels : ℤ
  data : List ℕ
deriving DecidableEq, Repr

/-- Ordered insertion into an integer-keyed association list, the
behaviour of `std::map<int, ·>::operator[]` assignment. -/
def insertZ {β : Type} (k : ℤ) (v : β) : List (ℤ × β) → List (ℤ × β)
  | [] => [(k, v)]
  | (k2, v2) :: rest =>
      if k < k2 then (k, v) :: (k2, v2) :: rest
      else if k = k2 then (k, v) :: rest
      else (k2, v2) :: insertZ k v rest

/-- Ordered insertion into a rational-keyed association list, the
behaviour of `std::map<float, ·>::operator[]` assignment. -/
def insertQ {β : Type} (k : ℚ) (v : β) : List (ℚ × β) → List (ℚ × β)
  | [] => [(k, v)]
  | (k2, v2) :: rest =>
      if k < k2 then (k, v) :: (k2, v2) :: rest
      else if k = k2 then (k, v) :: rest
      else (k2, v2) :: insertQ k v rest

/-- Assignment `m_mapOfTemplate_info[id][scale] = ti` on the nested
map-of-maps. -/
def infoInsert (info : List (ℤ × List (ℚ × Template_info_t))) (id : ℤ) (scale : ℚ)
    (ti : Template_info_t) : List (ℤ × List (ℚ × Template_info_t)) :=
  match List.lookup id info with
  | some scales => insertZ id (insertQ scale ti scales) info
  | none => insertZ id (insertQ scale ti []) info

/-- Values visited by `for (float scale = smin; scale <= smax; scale += sstep)`,
driven by a fuel bound sufficient for any positive step. -/
def scaleSeqGo (smax sstep : ℚ) : ℚ → ℕ → List ℚ
  | _, 0 => []
  | sc, Nat.succ fuel => if sc ≤ smax then sc :: scaleSeqGo smax sstep (sc + sstep) fuel else []

/-- Fuel bound for the scale sweep: for `sstep > 0` it dominates the
number of loop iterations. -/
def scaleFuel (smin smax sstep : ℚ) : ℕ := (Int.ceil ((smax - smin) / sstep)).toNat + 1

/-- The scale values visited by the template-preparation sweep. -/
def scaleSeqQ (smin smax sstep : ℚ) : List ℚ :=
  scaleSeqGo smax sstep smin (scaleFuel smin smax sstep)

/-- The scale sweep shared by the constructor, `setTemplateImages`,
`loadTemplateData` and `setScale`: for every visited scale with
`fabsf(scale - 1.0f) * 100.0f > m_scaleStep`, resample the template
image and store the prepared information under that scale.  `prep`
models `prepareTemplate` (built from external collaborators) and
`resize` models `cv::resize`. -/
def scaleSweepInsert (prep : CvImage → Template_info_t) (resize : CvImage → ℚ → CvImage)
    (smin smax sstep : ℚ) (id : ℤ) (img : CvImage)
    (info : List (ℤ × List (ℚ × Template_info_t))) : List (ℤ × List (ℚ × Template_info_t)) :=
  (scaleSeqQ smin smax sstep).foldl
    (fun acc sc =>
      if |sc - 1| * 100 > sstep then infoInsert acc id sc (prep (resize img sc)) else acc) info

/-- The mutable members of `ChamferMatcher` touched by template
configuration and persistence. -/
structure MatcherState where
  m_mapOfTemplate_info : List (ℤ × List (ℚ × Template_info_t))
  m_mapOfTemplateImages : List (ℤ × CvImage)
  m_scaleMin : ℚ
  m_scaleMax : ℚ
  m_scaleStep : ℚ

/-- Per-template body of the `setTemplateImages` loop: store the image,
store the scale-1 preparation, look up the ROI pair (returning early
with an error when absent), attach the two rectangles, then run the
scale sweep. -/
def setTemplateImagesLoop (prep : CvImage → Template_info_t) (resize : CvImage → ℚ → CvImage)
    (smin smax sstep : ℚ) (mapOfTemplateRois : List (ℤ × (CvRect × CvRect)))
    (s : MatcherState) : List (ℤ × CvImage) → MatcherState × List String
  | [] => (s, [])
  | (id, img) :: rest =>
      let s1 : MatcherState :=
        { s with
          m_mapOfTemplateImages := insertZ id img s.m_mapOfTemplateImages
          m_mapOfTemplate_info := infoInsert s.m_mapOfTemplate_info id 1 (prep img) }
      match List.lookup id mapOfTemplateRois with
      | none => (s1, ["The id does not exist in template rois!"])
      | some roi =>
          let base : Template_info_t :=
            { prep img with m_templateLocation := roi.1, m_queryROI := roi.2 }
          let s2 : MatcherState :=
            { s1 with m_mapOfTemplate_info := infoInsert s1.m_mapOfTemplate_info id 1 base }
          let s3 : MatcherState :=
            { s2 with m_mapOfTemplate_info :=
                scaleSweepInsert prep resize smin smax sstep id img s2.m_mapOfTemplate_info }
          setTemplateImagesLoop prep resize smin smax sstep mapOfTemplateRois s3 rest

/-- Embedding of `ChamferMatcher::setTemplateImages`.  The two template
maps are cleared first; only then is the size comparison performed, so
a size mismatch reports the error with the previous template state
already discarded. -/
def setTemplateImages (prep : CvImage → Template_info_t) (resize : CvImage → ℚ → CvImage)
    (s : MatcherState) (mapOfTemplateImages : List (ℤ × CvImage))
    (mapOfTemplateRois : List (ℤ × (CvRect × CvRect))) : MatcherState × List String :=
  let s0 : MatcherState := { s with m_mapOfTemplate_info := [], m_mapOfTemplateImages := [] }
  if mapOfTemplateImages.length ≠ mapOfTemplateRois.length then
    (s0, ["Different size between templates and rois!"])
  else
    setTemplateImagesLoop prep resize s.m_scaleMin s.m_scaleMax s.m_scaleStep
      mapOfTemplateRois s0 mapOfTemplateImages

/-- Embedding of `ChamferMatcher::detect` (single scale): prepare the
query, run `detect_impl` on the scale-1 information of every template,
tag each detection with its template id, concatenate and sort by
increasing cost.  `prepareQuery` models the query preparation built
from the external collaborators. -/
def detect (p : MatcherParams) (prepareQuery : CvImage → Query_info_t) (s : MatcherState)
    (img_query : CvImage) (angErr : ℚ → ℚ → ℚ) (lineIter : Pt → Pt → List Pt)
    (useOrientation : Bool) (distanceThresh lam weight_forward weight_backward : ℚ)
    (useGroupDetections : Bool) : List Detection_t :=
  let q := prepareQuery img_query
  sortDetections (s.m_mapOfTemplate_info.flatMap (fun e =>
    match List.lookup (1 : ℚ) e.2 with
    | some ti =>
        (detect_impl p ti q 1 angErr lineIter useOrientation distanceThresh
          lam weight_forward weight_backward useGroupDetections).map
          (fun d => { d with m_templateIndex := e.1 })
    | none => []))

/-- Observable outcome of one `detectMultiScale` call: the detections,
the error messages written to `std::cerr`, whether `prepareQuery` ran,
and how many `detect_impl` searches were started. -/
structure DetectMultiScaleResult where
  detections : List Detection_t
  errors : List String
  queryPrepared : Bool
  nbSearches : ℕ

/-- Embedding of `ChamferMatcher::detectMultiScale`: under the
pose-matching strategy it reports the error and returns with the
cleared detection list, before the query is prepared and before any
search runs; otherwise it searches every precomputed scale of every
template and sorts the merged detections by increasing cost. -/
def detectMultiScale (p : MatcherParams) (prepareQuery : CvImage → Query_info_t)
    (s : MatcherState) (img_query : CvImage) (angErr : ℚ → ℚ → ℚ)
    (lineIter : Pt → Pt → List Pt) (useOrientation : Bool)
    (distanceThresh lam weight_forward weight_backward : ℚ)
    (useNonMaximaSuppression useGroupDetections : Bool) : DetectMultiScaleResult :=
  if p.m_matchingStrategyType = MatchingStrategyType.templatePoseMatching then
    { detections := []
      errors := ["Cannot detect on multiple scales with the matching strategy=templatePoseMatching!"]
      queryPrepared := false
      nbSearches := 0 }
  else
    let q := prepareQuery img_query
    let all := s.m_mapOfTemplate_info.flatMap (fun e =>
      e.2.flatMap (fun se =>
        (detect_impl p se.2 q se.1 angErr lineIter useOrientation distanceThresh
          lam weight_forward weight_backward useGroupDetections).map
          (fun d => { d with m_templateIndex := e.1 })))
    { detections := sortDetections all
      errors := []
      queryPrepared := true
      nbSearches := (s.m_mapOfTemplate_info.map (fun e => e.2.length)).sum }

/-- Little-endian byte encoding of a 32-bit `int` as written by
`file.write((char *)&v, sizeof(v))`. -/
def int32ToBytes (n : ℤ) : List ℕ :=
  let u := (n % 4294967296).toNat
  [u % 256, u / 256 % 256, u / 65536 % 256, u / 16777216 % 256]

/-- Little-endian decoding of a 32-bit `int` from the first four bytes
of the stream, as read by `file.read((char *)&v, sizeof(v))`. -/
def int32FromBytes (bs : List ℕ) : ℤ :=
  match bs with
  | b0 :: b1 :: b2 :: b3 :: _ =>
      let u := b0 + 256 * b1 + 65536 * b2 + 16777216 * b3
      if u < 2147483648 then (u : ℤ) else (u : ℤ) - 4294967296
  | _ => 0

/-- Reading one 32-bit integer from the byte stream. -/
def readInt32 (bs : List ℕ) : ℤ × List ℕ := (int32FromBytes bs, bs.drop 4)

/-- The byte encoding of the two rectangles of one template record
(template location then query ROI, each as x, y, width, height). -/
def writeRect (r : CvRect) : List ℕ :=
  int32ToBytes r.x ++ int32ToBytes r.y ++ int32ToBytes r.width ++ int32ToBytes r.height

/-- Body of one template record as written by `saveTemplateData` after
the id: image dimensions and raw data, then the two rectangles.
When the scale-1 information or the template image is missing the
source only prints an error, writing nothing further for this
template. -/
def writeTemplateBody (images : List (ℤ × CvImage)) (id : ℤ)
    (scales : List (ℚ × Template_info_t)) : List ℕ :=
  match List.lookup (1 : ℚ) scales, List.lookup id images with
  | some ti, some img =>
      int32ToBytes img.rows ++ int32ToBytes img.cols ++ int32ToBytes img.channels
        ++ img.data ++ writeRect ti.m_templateLocation ++ writeRect ti.m_queryROI
  | _, _ => []

/-- The bytes written for one entry of `m_mapOfTemplate_info`: the id,
then (when the scale-1 information and the image are found) the record
body. -/
def templateEntryBytes (images : List (ℤ × CvImage))
    (e : ℤ × List (ℚ × Template_info_t)) : List ℕ :=
  int32ToBytes e.1 ++ writeTemplateBody images e.1 e.2

/-- Embedding of `ChamferMatcher::saveTemplateData`: the template
count, then one record per entry of `m_mapOfTemplate_info`. -/
def saveTemplateData (s : MatcherState) : List ℕ :=
  int32ToBytes (s.m_mapOfTemplate_info.length : ℤ)
    ++ s.m_mapOfTemplate_info.flatMap (templateEntryBytes s.m_mapOfTemplateImages)

/-- One parsed template record. -/
structure LoadedTemplate where
  id : ℤ
  img : CvImage
  templateLocation : CvRect
  queryROI : CvRect
deriving DecidableEq, Repr

/-- Reading one template record, mirroring the field order of
`loadTemplateData`.  The reconstructed `cv::Mat` has three channels
exactly when the stored channel count is 3 and one channel otherwise,
and wraps the corresponding prefix of the read buffer. -/
def readTemplateEntry (bs : List ℕ) : LoadedTemplate × List ℕ :=
  let r1 := readInt32 bs
  let r2 := readInt32 r1.2
  let r3 := readInt32 r2.2
  let r4 := readInt32 r3.2
  let len := (r2.1 * r3.1 * r4.1).toNat
  let dataBuf := r4.2.take len
  let bs5 := r4.2.drop len
  let r5 := readInt32 bs5
  let r6 := readInt32 r5.2
  let r7 := readInt32 r6.2
  let r8 := readInt32 r7.2
  let r9 := readInt32 r8.2
  let r10 := readInt32 r9.2
  let r11 := readInt32 r10.2
  let r12 := readInt32 r11.2
  let chan2 : ℤ := if r4.1 = 3 then 3 else 1
  ({ id := r1.1
     img :=
       { rows := r2.1, cols := r3.1, channels := chan2
         data := dataBuf.take ((r2.1 * r3.1 * chan2).toNat) }
     templateLocation := { x := r5.1, y := r6.1, width := r7.1, height := r8.1 }
     queryROI := { x := r9.1, y := r10.1, width := r11.1, height := r12.1 } }, r12.2)

/-- Reading `n` consecutive template records. -/
def readTemplates : ℕ → List ℕ → List LoadedTemplate
  | 0, _ => []
  | Nat.succ n, bs =>
      let r := readTemplateEntry bs
      r.1 :: readTemplates n r.2

/-- Processing of one parsed template record inside
`loadTemplateData`: store the image, rebuild the scale-1 information
with the two rectangles attached, and run the scale sweep. -/
def loadTemplateStep (prep : CvImage → Template_info_t) (resize : CvImage → ℚ → CvImage)
    (smin smax sstep : ℚ) (acc : MatcherState) (e : LoadedTemplate) : MatcherState :=
  let base : Template_info_t :=
    { prep e.img with m_templateLocation := e.templateLocation, m_queryROI := e.queryROI }
  let acc1 : MatcherState :=
    { acc with
      m_mapOfTemplateImages := insertZ e.id e.img acc.m_mapOfTemplateImages
      m_mapOfTemplate_info := infoInsert acc.m_mapOfTemplate_info e.id 1 base }
  { acc1 with
    m_mapOfTemplate_info := scaleSweepInsert prep resize smin smax sstep
      e.id e.img acc1.m_mapOfTemplate_info }

/-- Embedding of `ChamferMatcher::loadTemplateData` on an opened file:
clear both template maps, read the template count, then process each
record in file order. -/
def loadTemplateData (prep : CvImage → Template_info_t) (resize : CvImage → ℚ → CvImage)
    (bs : List ℕ) (s : MatcherState) : MatcherState :=
  let s0 : MatcherState := { s with m_mapOfTemplate_info := [], m_mapOfTemplateImages := [] }
  let r := readInt32 bs
  let entries := readTemplates r.1.toNat r.2
  entries.foldl (loadTemplateStep prep resize s.m_scaleMin s.m_scaleMax s.m_scaleStep) s0

/-- The parsed record that `readTemplateEntry` recovers from the bytes
of a well-formed saved entry: the id together with the stored image and
the two rectangles of the scale-1 information. -/
def loadedEntry (images : List (ℤ × CvImage))
    (e : ℤ × List (ℚ × Template_info_t)) : LoadedTemplate :=
  match List.lookup (1 : ℚ) e.2, List.lookup e.1 images with
  | some ti, some img =>
      { id := e.1, img := img
        templateLocation := ti.m_templateLocation, queryROI := ti.m_queryROI }
  | _, _ =>
      { id := e.1, img := { rows := 0, cols := 0, channels := 1, data := [] }
        templateLocation := { x := 0, y := 0, width := 0, height := 0 }
        queryROI := { x := 0, y := 0, width := 0, height := 0 } }

/-- Range of a C 32-bit `int`. -/
def int32Range (n : ℤ) : Prop := -2147483648 ≤ n ∧ n < 2147483648

/-- Well-formedness of a stored template image: dimensions and channel
count representable as 32-bit ints, one or three channels, and a data
buffer of exactly `rows * cols * channels` bytes. -/
def imageWF (img : CvImage) : Prop :=
  0 ≤ img.rows ∧ img.rows < 2147483648
    ∧ 0 ≤ img.cols ∧ img.cols < 2147483648
    ∧ (img.channels = 1 ∨ img.channels = 3)
    ∧ img.data.length = (img.rows * img.cols * img.channels).toNat

/-- Well-formedness of a stored rectangle: all four fields representable
as 32-bit ints. -/
def rectWF (r : CvRect) : Prop :=
  int32Range r.x ∧ int32Range r.y ∧ int32Range r.width ∧ int32Range r.height

/-- Well-formedness of one entry of `m_mapOfTemplate_info` for the
persistence round trip: a 32-bit id, a scale-1 information record, and
a matching well-formed template image. -/
def entryWF (images : List (ℤ × CvImage)) (e : ℤ × List (ℚ × Template_info_t)) : Prop :=
  int32Range e.1
    ∧ ∃ ti, List.lookup (1 : ℚ) e.2 = some ti
        ∧ rectWF ti.m_templateLocation ∧ rectWF ti.m_queryROI
        ∧ ∃ img, List.lookup e.1 images = some img ∧ imageWF img

/-- Forward edge-matching sum in closed form: the sum of the forward
contributions over all template contour points. -/
def edgeForwardSum (t : Template_info_t) (q : Query_info_t) (offsetX offsetY : ℤ)
    (useOrientation : Bool) (lam weight_forward : ℚ) (angErr : ℚ → ℚ → ℚ) : ℚ :=
  ((t.m_contours.zip t.m_edgesOrientation).map
    (fun co => ((co.1.zip co.2).map
      (edgeFwdContribution q offsetX offsetY useOrientation lam weight_forward angErr)).sum)).sum

/-- Number of template contour points visited by the forward pass (the
only points on which `nbElements` is incremented). -/
def edgeForwardCount (t : Template_info_t) : ℕ :=
  ((t.m_contours.zip t.m_edgesOrientation).map (fun co => (co.1.zip co.2).length)).sum

/-- Backward edge-matching sum in closed form: the sum of the backward
contributions (as the source computes them) over all query contour
points. -/
def edgeBackwardSum (t : Template_info_t) (q : Query_info_t) (offsetX offsetY : ℤ)
    (useOrientation : Bool) (lam weight_backward : ℚ) (angErr : ℚ → ℚ → ℚ) : ℚ :=
  ((q.m_contours.zip q.m_edgesOrientation).map
    (fun co => ((co.1.zip co.2).map
      (edgeBwdContribution t offsetX offsetY useOrientation lam weight_backward angErr)).sum)).sum

/-- Modelled from the spec: the backward contribution of one query
contour point as the specification describes it — the template
distance-field value at the offset-corrected coordinate
`(x - offsetX, y - offsetY)` for every query contour pixel inside the
template footprint, in both orientation variants. -/
def specBwdContribution (t : Template_info_t) (offsetX offsetY : ℤ) (useOrientation : Bool)
    (lam weight_backward : ℚ) (angErr : ℚ → ℚ → ℚ) (po : Pt × ℚ) : ℚ :=
  if offsetX ≤ po.1.x ∧ po.1.x < offsetX + t.m_distImgCols
      ∧ offsetY ≤ po.1.y ∧ po.1.y < offsetY + t.m_distImgRows then
    (if useOrientation then
      weight_backward * (t.m_distImg (po.1.y - offsetY) (po.1.x - offsetX)
        + lam * angErr po.2 (t.m_mapOfEdgeOrientation (po.1.y - offsetY) (po.1.x - offsetX)))
    else
      weight_backward * t.m_distImg (po.1.y - offsetY) (po.1.x - offsetX))
  else 0

/-- Modelled from the spec: the backward sum of the specification. -/
def specBackwardSum (t : Template_info_t) (q : Query_info_t) (offsetX offsetY : ℤ)
    (useOrientation : Bool) (lam weight_backward : ℚ) (angErr : ℚ → ℚ → ℚ) : ℚ :=
  ((q.m_contours.zip q.m_edgesOrientation).map
    (fun co => ((co.1.zip co.2).map
      (specBwdContribution t offsetX offsetY useOrientation lam weight_backward angErr)).sum)).sum

/-- Modelled from the spec: the number of query contour pixels inside
the template footprint, the backward pixel count of the
specification. -/
def specBwdCount (t : Template_info_t) (q : Query_info_t) (offsetX offsetY : ℤ) : ℕ :=
  (q.m_contours.map (fun c => (c.filter (fun pt =>
    decide (offsetX ≤ pt.x) && decide (pt.x < offsetX + t.m_distImgCols)
      && decide (offsetY ≤ pt.y) && decide (pt.y < offsetY + t.m_distImgRows))).length)).sum

/-- Modelled from the spec: the reference forward+backward edge cost —
weighted forward sum plus weighted backward sum, normalized by the
total contributing pixel count across both passes. -/
def specEdgeForwardBackwardCost (t : Template_info_t) (q : Query_info_t)
    (offsetX offsetY : ℤ) (useOrientation : Bool)
    (lam weight_forward weight_backward : ℚ) (angErr : ℚ → ℚ → ℚ) : FVal :=
  fdiv (edgeForwardSum t q offsetX offsetY useOrientation lam weight_forward angErr
      + specBackwardSum t q offsetX offsetY useOrientation lam weight_backward angErr)
    (edgeForwardCount t + specBwdCount t q offsetX offsetY)

/-- Angular-error collaborator returning zero everywhere (used for
concrete evaluations with orientation terms switched off). -/
def angErr0 : ℚ → ℚ → ℚ := fun _ _ => 0

/-- Line rasterization collaborator returning no pixels (used for
concrete evaluations that stay in the edge-matching branches). -/
def lineIter0 : Pt → Pt → List Pt := fun _ _ => []

/-- A template information record with every field empty or zero. -/
def baseTemplate : Template_info_t :=
  { m_contours := []
    m_distImg := fun _ _ => 0
    m_distImgRows := 0
    m_distImgCols := 0
    m_edgesOrientation := []
    m_gridDescriptorsLocations := []
    m_gridDescriptors := []
    m_mapOfEdgeOrientation := fun _ _ => 0
    m_mask := fun _ _ => false
    m_queryROI := { x := 0, y := 0, width := 0, height := 0 }
    m_templateLocation := { x := 0, y := 0, width := 0, height := 0 }
    m_vectorOfContourLines := [] }

/-- A query information record with every field empty or zero. -/
def baseQuery : Query_info_t :=
  { m_contours := []
    m_distImg := fun _ _ => 0
    m_distImgRows := 0
    m_distImgCols := 0
    m_edgesOrientation := []
    m_mapOfEdgeOrientation := fun _ _ => 0
    m_mask := fun _ _ => false
    m_vectorOfContourLines := [] }

/-- Trivial `prepareTemplate` collaborator for concrete evaluations. -/
def prep0 : CvImage → Template_info_t := fun _ => baseTemplate

/-- Trivial `cv::resize` collaborator for concrete evaluations. -/
def resize0 : CvImage → ℚ → CvImage := fun i _ => i

/-- Trivial `prepareQuery` collaborator for concrete evaluations. -/
def prepQuery0 : CvImage → Query_info_t := fun _ => baseQuery

/-- Template with one contour point at the origin, a 2 × 2 distance
image of constant value 1. -/
def tmplFB : Template_info_t :=
  { baseTemplate with
    m_contours := [[{ x := 0, y := 0 }]]
    m_edgesOrientation := [[0]]
    m_distImg := fun _ _ => 1
    m_distImgRows := 2
    m_distImgCols := 2 }

/-- Query with one contour point at the origin and a constant distance
field of value 3. -/
def queryFB : Query_info_t :=
  { baseQuery with
    m_contours := [[{ x := 0, y := 0 }]]
    m_edgesOrientation := [[0]]
    m_distImg := fun _ _ => 3
    m_distImgRows := 4
    m_distImgCols := 4 }

/-- Template whose 2 × 2 distance image encodes its coordinates
(`value = 10 y + x`), with one contour point at the origin. -/
def tmplBwd : Template_info_t :=
  { baseTemplate with
    m_contours := [[{ x := 0, y := 0 }]]
    m_edgesOrientation := [[0]]
    m_distImg := fun y x => ((10 * y + x : ℤ) : ℚ)
    m_distImgRows := 2
    m_distImgCols := 2 }

/-- Query with one contour point at `(1, 1)` and an all-zero distance
field. -/
def queryBwd : Query_info_t :=
  { baseQuery with
    m_contours := [[{ x := 1, y := 1 }]]
    m_edgesOrientation := [[0]]
    m_distImg := fun _ _ => 0
    m_distImgRows := 4
    m_distImgCols := 4 }

/-- A cost map cell list of 101 cells, all of cost 0. -/
def cellsAllZero : List FVal := List.replicate 101 (FVal.fin 0)

/-- Detection with bounding box `(1, 1, -4, -6)` (area 24). -/
def detNegA : Detection_t :=
  { m_boundingBox := { x := 1, y := 1, width := -4, height := -6 }
    m_chamferDist := FVal.fin 0
    m_scale := 1
    m_templateIndex := -1 }

/-- Detection with bounding box `(0, 0, -2, -4)` (area 8). -/
def detNegB : Detection_t :=
  { m_boundingBox := { x := 0, y := 0, width := -2, height := -4 }
    m_chamferDist := FVal.fin 0
    m_scale := 1
    m_templateIndex := -1 }

/-- Matcher configuration for concrete runs: plain edge matching,
template-matching strategy, rejection disabled. -/
def paramsEdge : MatcherParams :=
  { m_maxDescriptorDistanceError := 10
    m_maxDescriptorOrientationError := 35 / 100
    m_minNbDescriptorMatches := 5
    m_matchingStrategyType := MatchingStrategyType.templateMatching
    m_matchingType := MatchingType.edgeMatching
    m_rejectionType := RejectionType.noRejection }

/-- Matcher configuration under the pose-matching strategy. -/
def paramsPose : MatcherParams :=
  { paramsEdge with m_matchingStrategyType := MatchingStrategyType.templatePoseMatching }

/-- One-by-one template with a single contour point. -/
def tmplSmall : Template_info_t :=
  { baseTemplate with
    m_contours := [[{ x := 0, y := 0 }]]
    m_edgesOrientation := [[0]]
    m_distImg := fun _ _ => 0
    m_distImgRows := 1
    m_distImgCols := 1 }

/-- Two-by-two template (larger than the one-by-one query). -/
def tmplBig : Template_info_t :=
  { baseTemplate with m_distImgRows := 2, m_distImgCols := 2 }

/-- One-by-one query with an all-zero distance field. -/
def querySmall : Query_info_t :=
  { baseQuery with
    m_contours := []
    m_distImg := fun _ _ => 0
    m_distImgRows := 1
    m_distImgCols := 1 }

/-- A one-pixel single-channel image with payload byte 7. -/
def imgOne : CvImage := { rows := 1, cols := 1, channels := 1, data := [7] }

/-- A 2 × 1 three-channel image with six payload bytes. -/
def imgThree : CvImage := { rows := 2, cols := 1, channels := 3, data := [1, 2, 3, 4, 5, 6] }

/-- Template information carrying distinctive rectangles for the
persistence round trip. -/
def tiRects : Template_info_t :=
  { baseTemplate with
    m_templateLocation := { x := 1, y := 2, width := 3, height := 4 }
    m_queryROI := { x := 5, y := 6, width := 7, height := 8 } }

/-- Matcher state holding one configured template, used for the
persistence round trip (the scale range is empty so the sweep is
trivial). -/
def stateOneTemplate : MatcherState :=
  { m_mapOfTemplate_info := [(1, [(1, tiRects)])]
    m_mapOfTemplateImages := [(1, imgOne)]
    m_scaleMin := 2
    m_scaleMax := 1
    m_scaleStep := 1 }

/-- Matcher state holding one configured template with id 3, used as
the previously configured state overwritten by `setTemplateImages`. -/
def statePrev : MatcherState :=
  { m_mapOfTemplate_info := [(3, [(1, tiRects)])]
    m_mapOfTemplateImages := [(3, imgOne)]
    m_scaleMin := 2
    m_scaleMax := 1
    m_scaleStep := 1 }

/-- Matcher state holding one template prepared at scale 1 only. -/
def stateSmall : MatcherState :=
  { m_mapOfTemplate_info := [(1, [(1, tmplSmall)])]
    m_mapOfTemplateImages := [(1, imgOne)]
    m_scaleMin := 2
    m_scaleMax := 1
    m_scaleStep := 1 }

/-- Matcher state holding one oversized template prepared at scale 1. -/
def stateBig : MatcherState :=
  { m_mapOfTemplate_info := [(1, [(1, tmplBig)])]
    m_mapOfTemplateImages := [(1, imgOne)]
    m_scaleMin := 2
    m_scaleMax := 1
    m_scaleStep := 1 }

/-- The all-zero rectangle (an empty ROI means search everywhere). -/
def rect0 : CvRect := { x := 0, y := 0, width := 0, height := 0 }

/-- Detection with an ordinary positive-size bounding box. -/
def detPos : Detection_t :=
  { m_boundingBox := { x := 0, y := 0, width := 3, height := 4 }
    m_chamferDist := FVal.fin 0
    m_scale := 1
    m_templateIndex := -1 }

/-- A one-pixel four-channel (RGBA) image with four payload bytes. -/
def imgFour : CvImage := { rows := 1, cols := 1, channels := 4, data := [10, 20, 30, 40] }

/-- Matcher state holding one configured template whose image has four
channels (the scale range is empty so the sweep is trivial). -/
def stateFourChannel : MatcherState :=
  { m_mapOfTemplate_info := [(1, [(1, tiRects)])]
    m_mapOfTemplateImages := [(1, imgFour)]
    m_scaleMin := 2
    m_scaleMax := 1
    m_scaleStep := 1 }

theorem accumPoints_eq (f : Pt × ℚ → ℚ) (ci : Bool) (acc : ℚ × ℕ) (pts : List (Pt × ℚ)) :
    accumPoints f ci acc pts
      = (acc.1 + (pts.map f).sum, acc.2 + if ci then pts.length else 0) := by
  induction pts generalizing acc with
  | nil => simp [accumPoints]
  | cons p rest ih =>
      have hstep : accumPoints f ci acc (p :: rest)
          = accumPoints f ci (acc.1 + f p, if ci then acc.2 + 1 else acc.2) rest := rfl
      rw [hstep, ih]
      cases ci <;> refine Prod.ext ?_ ?_ <;> simp <;> first | ring | omega | rfl

theorem accumPairList_eq (f : Pt × ℚ → ℚ) (ci : Bool) (l : List (List Pt × List ℚ))
    (acc : ℚ × ℕ) :
    l.foldl (fun a co => accumPoints f ci a (co.1.zip co.2)) acc
      = (acc.1 + (l.map (fun co => ((co.1.zip co.2).map f).sum)).sum,
         acc.2 + if ci then (l.map (fun co => (co.1.zip co.2).length)).sum else 0) := by
  induction l generalizing acc with
  | nil => simp
  | cons co rest ih =>
      rw [List.foldl_cons, ih, accumPoints_eq]
      cases ci <;> refine Prod.ext ?_ ?_ <;> simp <;> first | ring | omega | rfl

theorem accumContours_eq (f : Pt × ℚ → ℚ) (ci : Bool) (cs : List (List Pt))
    (os : List (List ℚ)) (acc : ℚ × ℕ) :
    accumContours f ci cs os acc
      = (acc.1 + ((cs.zip os).map (fun co => ((co.1.zip co.2).map f).sum)).sum,
         acc.2 + if ci then ((cs.zip os).map (fun co => (co.1.zip co.2).length)).sum else 0) := by
  unfold accumContours
  exact accumPairList_eq f ci (cs.zip os) acc

theorem computeChamferDistance_edgeFB_unfold (t : Template_info_t) (q : Query_info_t)
    (angErr : ℚ → ℚ → ℚ) (lineIter : Pt → Pt → List Pt) (offsetX offsetY : ℤ)
    (useOrientation : Bool) (lam weight_forward weight_backward : ℚ) :
    computeChamferDistance MatchingType.edgeForwardBackwardMatching t q angErr lineIter
      offsetX offsetY useOrientation lam weight_forward weight_backward
      = fdiv (accumContours (edgeBwdContribution t offsetX offsetY useOrientation lam weight_backward angErr)
            false q.m_contours q.m_edgesOrientation
            (accumContours (edgeFwdContribution q offsetX offsetY useOrientation lam weight_forward angErr)
              true t.m_contours t.m_edgesOrientation (0, 0))).1
          (accumContours (edgeBwdContribution t offsetX offsetY useOrientation lam weight_backward angErr)
            false q.m_contours q.m_edgesOrientation
            (accumContours (edgeFwdContribution q offsetX offsetY useOrientation lam weight_forward angErr)
              true t.m_contours t.m_edgesOrientation (0, 0))).2 := rfl

theorem computeChamferDistance_edge_unfold (t : Template_info_t) (q : Query_info_t)
    (angErr : ℚ → ℚ → ℚ) (lineIter : Pt → Pt → List Pt) (offsetX offsetY : ℤ)
    (useOrientation : Bool) (lam weight_forward weight_backward : ℚ) :
    computeChamferDistance MatchingType.edgeMatching t q angErr lineIter
      offsetX offsetY useOrientation lam weight_forward weight_backward
      = fdiv (accumContours (edgeFwdContribution q offsetX offsetY useOrientation lam weight_forward angErr)
            true t.m_contours t.m_edgesOrientation (0, 0)).1
          (accumContours (edgeFwdContribution q offsetX offsetY useOrientation lam weight_forward angErr)
            true t.m_contours t.m_edgesOrientation (0, 0)).2 := rfl

/-- C2 (amended): in forward+backward edge matching the returned cost
equals the weighted forward sum plus the weighted backward sum, but
normalized by the forward pixel count alone — the backward pass leaves
`nbElements` unchanged (`j++, nbElements` is a no-op), so query contour
pixels never enter the divisor. -/
theorem computeChamferDistance_edgeFB_normalization (t : Template_info_t) (q : Query_info_t)
    (angErr : ℚ → ℚ → ℚ) (lineIter : Pt → Pt → List Pt) (offsetX offsetY : ℤ)
    (useOrientation : Bool) (lam weight_forward weight_backward : ℚ) :
    computeChamferDistance MatchingType.edgeForwardBackwardMatching t q angErr lineIter
      offsetX offsetY useOrientation lam weight_forward weight_backward
      = fdiv (edgeForwardSum t q offsetX offsetY useOrientation lam weight_forward angErr
          + edgeBackwardSum t q offsetX offsetY useOrientation lam weight_backward angErr)
        (edgeForwardCount t) := by
  rw [computeChamferDistance_edgeFB_unfold]
  rw [accumContours_eq, accumContours_eq]
  simp only [if_true, if_false, zero_add, add_zero, Nat.add_zero]
  unfold edgeForwardSum edgeBackwardSum edgeForwardCount
  rfl

/-- C2 counterexample: a template with one contour pixel and a query
with one contour pixel inside the footprint.  The code returns
`(3 + 1) / 1 = 4` (forward count only), while the claimed
normalization over both passes gives `(3 + 1) / 2 = 2`. -/
theorem computeChamferDistance_edgeFB_spec_cex :
    computeChamferDistance MatchingType.edgeForwardBackwardMatching tmplFB queryFB
        angErr0 lineIter0 0 0 false 0 1 1 = FVal.fin 4
    ∧ specEdgeForwardBackwardCost tmplFB queryFB 0 0 false 0 1 1 angErr0 = FVal.fin 2
    ∧ FVal.fin (4 : ℚ) ≠ FVal.fin 2 := by
  refine ⟨?_, ?_, ?_⟩ <;> with_unfolding_all decide

/-- C3 counterexample: with no contributing pixels (a template without
contours under plain edge matching) the evaluator returns NaN — not an
infinite or maximal cost. -/
theorem computeChamferDistance_zero_pixels_cex :
    computeChamferDistance MatchingType.edgeMatching baseTemplate queryFB
        angErr0 lineIter0 0 0 false 0 1 1 = FVal.nan
    ∧ FVal.nan ≠ FVal.inf
    ∧ FVal.nan ≠ fltMax
    ∧ FVal.ltb FVal.nan (FVal.fin 100) = false := by
  refine ⟨?_, ?_, ?_, ?_⟩ <;> with_unfolding_all decide

theorem rectSumQ_zero (rows cols : ℕ) (f : ℕ → ℕ → ℚ) (h : ∀ i j, f i j = 0) :
    rectSumQ rows cols f = 0 := by
  unfold rectSumQ
  apply List.sum_eq_zero
  intro x hx
  obtain ⟨i, _, rfl⟩ := List.mem_map.mp hx
  apply List.sum_eq_zero
  intro y hy
  obtain ⟨j, _, rfl⟩ := List.mem_map.mp hy
  exact h i j

theorem rectCountB_zero (rows cols : ℕ) (f : ℕ → ℕ → Bool) (h : ∀ i j, f i j = false) :
    rectCountB rows cols f = 0 := by
  unfold rectCountB
  have hz : ∀ x ∈ (List.range rows).map
      (fun i => ((List.range cols).filter (fun j => f i j)).length), x = 0 := by
    intro x hx
    obtain ⟨i, _, rfl⟩ := List.mem_map.mp hx
    have : (List.range cols).filter (fun j => f i j) = [] := by
      apply List.filter_eq_nil_iff.mpr
      intro a _
      simp [h i a]
    simp [this]
  exact List.sum_eq_zero hz

/-- C3 (amended): when zero pixels contribute, the evaluators return
NaN (the result of `0.0 / 0`), not an infinite or maximal cost; NaN
then fails every `<` comparison against a threshold, so downstream it
behaves as a non-match.  Stated for the edge evaluator on a template
without contours and for the masked evaluator under an all-false
mask. -/
theorem chamfer_zero_pixels_nan :
    (∀ (t : Template_info_t) (q : Query_info_t) (angErr : ℚ → ℚ → ℚ)
      (lineIter : Pt → Pt → List Pt) (offsetX offsetY : ℤ) (useOrientation : Bool)
      (lam weight_forward weight_backward : ℚ), t.m_contours = [] →
        computeChamferDistance MatchingType.edgeMatching t q angErr lineIter offsetX offsetY
          useOrientation lam weight_forward weight_backward = FVal.nan)
    ∧ (∀ (t : Template_info_t) (q : Query_info_t) (offsetX offsetY : ℤ)
      (useOrientation : Bool) (lam : ℚ), (∀ i j, t.m_mask i j = false) →
        computeFullChamferDistance MatchingType.maskMatching t q offsetX offsetY
          useOrientation lam = FVal.nan)
    ∧ (∀ thr : ℚ, FVal.ltb FVal.nan (FVal.fin thr) = false) := by
  refine ⟨?_, ?_, ?_⟩
  · intro t q angErr lineIter offsetX offsetY useOrientation lam wF wB hc
    rw [computeChamferDistance_edge_unfold, accumContours_eq, hc]
    simp [fdiv]
  · intro t q offsetX offsetY useOrientation lam hm
    have hcm : ∀ i j : ℤ, commonMask MatchingType.maskMatching t q offsetX offsetY i j = false := by
      intro i j
      simp [commonMask, hm]
    simp only [computeFullChamferDistance]
    rw [if_neg (by simp)]
    rw [rectSumQ_zero _ _ _ (by intro i j; simp only [hcm]; simp)]
    rw [rectCountB_zero _ _ _ (by intro i j; exact hcm _ _)]
    cases useOrientation
    · simp [fdiv]
    · rw [rectSumQ_zero _ _ _ (by intro i j; simp only [hcm]; simp)]
      simp [fdiv]
  · intro thr
    rfl

/-- Witness for `chamfer_zero_pixels_nan` at the empty template, the
all-false base mask and threshold 5. -/
theorem chamfer_zero_pixels_nan_witness :
    computeChamferDistance MatchingType.edgeMatching baseTemplate baseQuery
        angErr0 lineIter0 0 0 false 0 1 1 = FVal.nan
    ∧ computeFullChamferDistance MatchingType.maskMatching baseTemplate baseQuery
        0 0 false 0 = FVal.nan
    ∧ FVal.ltb FVal.nan (FVal.fin 5) = false :=
  ⟨chamfer_zero_pixels_nan.1 baseTemplate baseQuery angErr0 lineIter0 0 0 false 0 1 1 rfl,
   chamfer_zero_pixels_nan.2.1 baseTemplate baseQuery 0 0 false 0 (fun _ _ => rfl),
   chamfer_zero_pixels_nan.2.2 5⟩

/-- C8: evaluation of the backward pass at offset `(1, 1)`.  With
orientation disabled the code adds the template distance value at the
uncorrected coordinate `(1, 1)` (value 11), not at the offset-corrected
coordinate `(0, 0)` (value 0); with orientation enabled the same input
uses the corrected coordinate and yields 0. -/
theorem computeChamferDistance_backward_offset_bug :
    computeChamferDistance MatchingType.edgeForwardBackwardMatching tmplBwd queryBwd
        angErr0 lineIter0 1 1 false 0 1 1 = FVal.fin 11
    ∧ tmplBwd.m_distImg 1 1 = 11
    ∧ tmplBwd.m_distImg 0 0 = 0
    ∧ computeChamferDistance MatchingType.edgeForwardBackwardMatching tmplBwd queryBwd
        angErr0 lineIter0 1 1 true 0 1 1 = FVal.fin 0 := by
  refine ⟨?_, ?_, ?_, ?_⟩ <;> with_unfolding_all decide

set_option maxRecDepth 40000 in
/-- C4: the extraction loop of `detect_impl` is a do-while whose guard
`iteration <= maxLoopIterations` is tested after the increment, so a
cost map holding 101 cells below the threshold yields 101 raw
detections — one more than the documented cap of 100. -/
theorem extractLoop_cap_off_by_one :
    maxLoopIterations = 100
    ∧ (extractLoopGo 102 baseTemplate 1 cellsAllZero 1 maxLoopIterations).length = 101
    ∧ cellsAllZero.length = 101 := by
  refine ⟨rfl, ?_, ?_⟩ <;> with_unfolding_all decide

/-- C1 (amended): a size mismatch between the template and ROI maps
makes `setTemplateImages` report the error and stop — but both template
maps were already cleared before the size check, so the previous
template configuration is lost rather than preserved. -/
theorem setTemplateImages_mismatch (prep : CvImage → Template_info_t)
    (resize : CvImage → ℚ → CvImage) (s : MatcherState)
    (mapOfTemplateImages : List (ℤ × CvImage))
    (mapOfTemplateRois : List (ℤ × (CvRect × CvRect)))
    (h : mapOfTemplateImages.length ≠ mapOfTemplateRois.length) :
    setTemplateImages prep resize s mapOfTemplateImages mapOfTemplateRois
      = ({ s with m_mapOfTemplate_info := [], m_mapOfTemplateImages := [] },
         ["Different size between templates and rois!"]) := by
  unfold setTemplateImages
  rw [if_pos h]

/-- Witness for `setTemplateImages_mismatch`: two template images
against one ROI entry, starting from a previously configured state. -/
theorem setTemplateImages_mismatch_witness :
    setTemplateImages prep0 resize0 statePrev [(1, imgOne), (2, imgOne)] [(1, (rect0, rect0))]
      = ({ statePrev with m_mapOfTemplate_info := [], m_mapOfTemplateImages := [] },
         ["Different size between templates and rois!"]) :=
  setTemplateImages_mismatch prep0 resize0 statePrev _ _ (by decide)

/-- C1 counterexample: calling `setTemplateImages` with 2 template
images and 1 ROI entry on a matcher holding template id 3 reports the
size-mismatch error, yet afterwards both template maps are empty — the
previously configured template is not left untouched. -/
theorem setTemplateImages_mismatch_clears_cex :
    ((setTemplateImages prep0 resize0 statePrev
        [(1, imgOne), (2, imgOne)] [(1, (rect0, rect0))]).1.m_mapOfTemplateImages = []
      ∧ (setTemplateImages prep0 resize0 statePrev
        [(1, imgOne), (2, imgOne)] [(1, (rect0, rect0))]).1.m_mapOfTemplate_info = []
      ∧ (setTemplateImages prep0 resize0 statePrev
        [(1, imgOne), (2, imgOne)] [(1, (rect0, rect0))]).2
          = ["Different size between templates and rois!"])
    ∧ statePrev.m_mapOfTemplateImages ≠ [] := by
  refine ⟨⟨rfl, rfl, rfl⟩, ?_⟩
  simp [statePrev]

/-- C9: under the pose-matching strategy, `detectMultiScale` reports
the error and returns the empty detection list without preparing the
query and without starting any search. -/
theorem detectMultiScale_pose_fail_fast (p : MatcherParams)
    (prepareQuery : CvImage → Query_info_t) (s : MatcherState) (img_query : CvImage)
    (angErr : ℚ → ℚ → ℚ) (lineIter : Pt → Pt → List Pt) (useOrientation : Bool)
    (distanceThresh lam weight_forward weight_backward : ℚ)
    (useNonMaximaSuppression useGroupDetections : Bool)
    (h : p.m_matchingStrategyType = MatchingStrategyType.templatePoseMatching) :
    detectMultiScale p prepareQuery s img_query angErr lineIter useOrientation
        distanceThresh lam weight_forward weight_backward
        useNonMaximaSuppression useGroupDetections
      = { detections := []
          errors := ["Cannot detect on multiple scales with the matching strategy=templatePoseMatching!"]
          queryPrepared := false
          nbSearches := 0 } := by
  unfold detectMultiScale
  rw [if_pos h]

/-- Witness for `detectMultiScale_pose_fail_fast` under the concrete
pose-matching configuration. -/
theorem detectMultiScale_pose_fail_fast_witness :
    detectMultiScale paramsPose prepQuery0 stateSmall imgOne angErr0 lineIter0 false
        50 1 1 1 false false
      = { detections := []
          errors := ["Cannot detect on multiple scales with the matching strategy=templatePoseMatching!"]
          queryPrepared := false
          nbSearches := 0 } :=
  detectMultiScale_pose_fail_fast paramsPose prepQuery0 stateSmall imgOne angErr0 lineIter0
    false 50 1 1 1 false false rfl

/-- C10: when the template is wider or taller than the query,
`computeMatchingMap` returns the empty map and `detect_impl` emits no
detections; neither function has an error path, so no error is
signalled. -/
theorem oversized_template_no_detections (p : MatcherParams) (t : Template_info_t)
    (q : Query_info_t) (scale : ℚ) (angErr : ℚ → ℚ → ℚ) (lineIter : Pt → Pt → List Pt)
    (useOrientation : Bool) (distanceThresh lam weight_forward weight_backward : ℚ)
    (useGroupDetections : Bool)
    (h : q.m_distImgCols < t.m_distImgCols ∨ q.m_distImgRows < t.m_distImgRows) :
    computeMatchingMap p t q angErr lineIter useOrientation 5 5
        lam weight_forward weight_backward = none
    ∧ detect_impl p t q scale angErr lineIter useOrientation distanceThresh
        lam weight_forward weight_backward useGroupDetections = [] := by
  have hmap : computeMatchingMap p t q angErr lineIter useOrientation 5 5
      lam weight_forward weight_backward = none := by
    simp only [computeMatchingMap]
    rw [if_pos (by omega)]
  refine ⟨hmap, ?_⟩
  unfold detect_impl
  rw [hmap]

/-- Witness for `oversized_template_no_detections`: a 2 × 2 template
against a 1 × 1 query. -/
theorem oversized_template_no_detections_witness :
    computeMatchingMap paramsEdge tmplBig querySmall angErr0 lineIter0 false 5 5 1 1 1 = none
    ∧ detect_impl paramsEdge tmplBig querySmall 1 angErr0 lineIter0 false 50 1 1 1 false = [] :=
  oversized_template_no_detections paramsEdge tmplBig querySmall 1 angErr0 lineIter0
    false 50 1 1 1 false (Or.inl (by decide))

theorem FVal.ltb_fin_mono {v : FVal} {t1 t2 : ℚ} (hle : t1 ≤ t2)
    (h : FVal.ltb v (FVal.fin t1) = true) : FVal.ltb v (FVal.fin t2) = true := by
  cases v with
  | fin a =>
      have ha : a < t1 := h
      exact lt_of_lt_of_le ha hle
  | inf => simp [FVal.ltb] at h
  | ninf => rfl
  | nan => simp [FVal.ltb] at h

theorem extractLoopGo_length_mono (w : ℤ) (t : Template_info_t) (scale : ℚ) {t1 t2 : ℚ}
    (hle : t1 ≤ t2) : ∀ (r : ℕ) (cells : List FVal),
    (extractLoopGo w t scale cells t1 r).length ≤ (extractLoopGo w t scale cells t2 r).length := by
  intro r
  induction r with
  | zero =>
      intro cells
      unfold extractLoopGo
      cases hm : minMaxLocMin cells with
      | none => simp
      | some vi =>
          obtain ⟨v, idx⟩ := vi
          dsimp only
          by_cases h1 : FVal.ltb v (FVal.fin t1) = true
          · rw [if_pos h1, if_pos (FVal.ltb_fin_mono hle h1)]
          · rw [if_neg h1]
            simp
  | succ r2 ih =>
      intro cells
      unfold extractLoopGo
      cases hm : minMaxLocMin cells with
      | none => simp
      | some vi =>
          obtain ⟨v, idx⟩ := vi
          dsimp only
          by_cases h1 : FVal.ltb v (FVal.fin t1) = true
          · rw [if_pos h1, if_pos (FVal.ltb_fin_mono hle h1)]
            simpa using Nat.succ_le_succ (ih _)
          · rw [if_neg h1]
            simp

theorem sortDetections_length (l : List Detection_t) :
    (sortDetections l).length = l.length :=
  (List.perm_insertionSort costLe l).length_eq

theorem detect_impl_length_mono (p : MatcherParams) (t : Template_info_t)
    (q : Query_info_t) (scale : ℚ) (angErr : ℚ → ℚ → ℚ) (lineIter : Pt → Pt → List Pt)
    (useOrientation : Bool) (lam weight_forward weight_backward : ℚ) {t1 t2 : ℚ}
    (hle : t1 ≤ t2) :
    (detect_impl p t q scale angErr lineIter useOrientation t1
        lam weight_forward weight_backward false).length
      ≤ (detect_impl p t q scale angErr lineIter useOrientation t2
        lam weight_forward weight_backward false).length := by
  unfold detect_impl
  cases hm : computeMatchingMap p t q angErr lineIter useOrientation 5 5
      lam weight_forward weight_backward with
  | none => simp
  | some m =>
      simp only [Bool.false_eq_true, if_false, sortDetections_length]
      exact extractLoopGo_length_mono m.width t scale hle maxLoopIterations m.cells

/-- C5: with clustering disabled, raising the distance threshold passed
to `detect` never decreases the number of raw detections returned. -/
theorem detect_threshold_monotone (p : MatcherParams)
    (prepareQuery : CvImage → Query_info_t) (s : MatcherState) (img_query : CvImage)
    (angErr : ℚ → ℚ → ℚ) (lineIter : Pt → Pt → List Pt) (useOrientation : Bool)
    (lam weight_forward weight_backward : ℚ) {t1 t2 : ℚ} (hle : t1 ≤ t2) :
    (detect p prepareQuery s img_query angErr lineIter useOrientation t1
        lam weight_forward weight_backward false).length
      ≤ (detect p prepareQuery s img_query angErr lineIter useOrientation t2
        lam weight_forward weight_backward false).length := by
  unfold detect
  rw [sortDetections_length, sortDetections_length, List.length_flatMap,
    List.length_flatMap]
  apply List.sum_le_sum
  intro e _
  simp only [Function.comp_apply]
  cases hl : List.lookup (1 : ℚ) e.2 with
  | none => simp
  | some ti =>
      simp only [List.length_map]
      exact detect_impl_length_mono p ti (prepareQuery img_query) 1 angErr lineIter
        useOrientation lam weight_forward weight_backward hle

/-- Witness for `detect_threshold_monotone` at thresholds 1 and 2 on a
one-template matcher. -/
theorem detect_threshold_monotone_witness :
    (detect paramsEdge prepQuery0 stateSmall imgOne angErr0 lineIter0 false 1 0 1 1
        false).length
      ≤ (detect paramsEdge prepQuery0 stateSmall imgOne angErr0 lineIter0 false 2 0 1 1
        false).length :=
  detect_threshold_monotone paramsEdge prepQuery0 stateSmall imgOne angErr0 lineIter0
    false 0 1 1 (by norm_num)

theorem nmsFilter_subset {d : Detection_t} :
    ∀ {l : List Detection_t}, d ∈ nmsFilter l → d ∈ l := by
  intro l
  induction l with
  | nil => intro h; simp [nmsFilter] at h
  | cons a rest ih =>
      intro h
      unfold nmsFilter at h
      by_cases hb : (rest.any fun d2 =>
          strictlyInsideRect a.m_boundingBox d2.m_boundingBox) = true
      · rw [if_pos hb] at h
        exact List.mem_cons_of_mem _ (ih h)
      · rw [if_neg hb] at h
        rcases List.mem_cons.mp h with h1 | h1
        · exact h1 ▸ List.mem_cons_self _ _
        · exact List.mem_cons_of_mem _ (ih h1)

theorem strictlyInside_area_lt {r1 r2 : CvRect} (hw : 0 ≤ r1.width) (hh : 0 ≤ r1.height)
    (h : strictlyInsideRect r1 r2 = true) : rectArea r1 < rectArea r2 := by
  unfold strictlyInsideRect at h
  simp only [Bool.and_eq_true, decide_eq_true_eq] at h
  obtain ⟨⟨⟨h1, h2⟩, h3⟩, h4⟩ := h
  have hw2 : r1.width < r2.width := by omega
  have hh2 : r1.height < r2.height := by omega
  have hpos : (0 : ℤ) < r2.height := lt_of_le_of_lt hh hh2
  unfold rectArea
  calc r1.width * r1.height ≤ r1.width * r2.height :=
        mul_le_mul_of_nonneg_left (le_of_lt hh2) hw
    _ < r2.width * r2.height := mul_lt_mul_of_pos_right hw2 hpos

theorem strictlyInside_self (r : CvRect) : strictlyInsideRect r r = false := by
  unfold strictlyInsideRect
  simp

theorem nmsFilter_no_containment : ∀ (l : List Detection_t),
    l.Pairwise areaLe →
    (∀ d ∈ l, 0 ≤ d.m_boundingBox.width ∧ 0 ≤ d.m_boundingBox.height) →
    ∀ d1 ∈ nmsFilter l, ∀ d2 ∈ nmsFilter l,
      strictlyInsideRect d1.m_boundingBox d2.m_boundingBox = false := by
  intro l
  induction l with
  | nil => intro _ _ d1 h1; simp [nmsFilter] at h1
  | cons a rest ih =>
      intro hp hnn d1 h1 d2 h2
      rw [List.pairwise_cons] at hp
      obtain ⟨hpa, hprest⟩ := hp
      have hnnrest : ∀ d ∈ rest, 0 ≤ d.m_boundingBox.width ∧ 0 ≤ d.m_boundingBox.height :=
        fun d hd => hnn d (List.mem_cons_of_mem _ hd)
      by_cases hb : (rest.any fun d2 =>
          strictlyInsideRect a.m_boundingBox d2.m_boundingBox) = true
      · have heq : nmsFilter (a :: rest) = nmsFilter rest := by
          show (if (rest.any fun d2 => strictlyInsideRect a.m_boundingBox d2.m_boundingBox) = true
              then nmsFilter rest else a :: nmsFilter rest) = nmsFilter rest
          rw [if_pos hb]
        rw [heq] at h1 h2
        exact ih hprest hnnrest d1 h1 d2 h2
      · have heq : nmsFilter (a :: rest) = a :: nmsFilter rest := by
          show (if (rest.any fun d2 => strictlyInsideRect a.m_boundingBox d2.m_boundingBox) = true
              then nmsFilter rest else a :: nmsFilter rest) = a :: nmsFilter rest
          rw [if_neg hb]
        rw [heq] at h1 h2
        rcases List.mem_cons.mp h1 with e1 | m1
        · rcases List.mem_cons.mp h2 with e2 | m2
          · subst e1
            subst e2
            exact strictlyInside_self _
          · subst e1
            cases hsi : strictlyInsideRect d1.m_boundingBox d2.m_boundingBox with
            | false => rfl
            | true =>
                exfalso
                apply hb
                exact List.any_eq_true.mpr ⟨d2, nmsFilter_subset m2, hsi⟩
        · rcases List.mem_cons.mp h2 with e2 | m2
          · subst e2
            cases hsi : strictlyInsideRect d1.m_boundingBox d2.m_boundingBox with
            | false => rfl
            | true =>
                exfalso
                have hmem : d1 ∈ rest := nmsFilter_subset m1
                have hle : areaLe d2 d1 := hpa d1 hmem
                have hlt : rectArea d1.m_boundingBox < rectArea d2.m_boundingBox :=
                  strictlyInside_area_lt (hnnrest d1 hmem).1 (hnnrest d1 hmem).2 hsi
                exact absurd hle (not_le_of_lt hlt)
          · exact ih hprest hnnrest d1 m1 d2 m2

/-- C7 (amended): after non-maximum suppression, no surviving detection
box is strictly contained in another surviving detection box, provided
every input box has nonnegative width and height (for boxes with
negative dimensions the area sort can place the containing box first
and both survive). -/
theorem nonMaximaSuppression_no_nested (detections : List Detection_t)
    (hnn : ∀ d ∈ detections, 0 ≤ d.m_boundingBox.width ∧ 0 ≤ d.m_boundingBox.height) :
    ∀ d1 ∈ nonMaximaSuppression detections, ∀ d2 ∈ nonMaximaSuppression detections,
      strictlyInsideRect d1.m_boundingBox d2.m_boundingBox = false := by
  unfold nonMaximaSuppression
  apply nmsFilter_no_containment
  · exact List.sorted_insertionSort areaLe detections
  · intro d hd
    exact hnn d ((List.perm_insertionSort areaLe detections).subset hd)

/-- Witness for `nonMaximaSuppression_no_nested` on a singleton list
with an ordinary box. -/
theorem nonMaximaSuppression_no_nested_witness :
    strictlyInsideRect detPos.m_boundingBox detPos.m_boundingBox = false :=
  nonMaximaSuppression_no_nested [detPos] (by decide) detPos (by decide) detPos (by decide)

/-- C7 counterexample: with boxes of negative width and height, the box
of `detNegA` is strictly inside the box of `detNegB` by the code
containment test, yet both detections survive non-maximum suppression
(the containing box has the smaller area, so it is processed first and
never compared against the contained one). -/
theorem nonMaximaSuppression_nested_cex :
    detNegA ∈ nonMaximaSuppression [detNegA, detNegB]
    ∧ detNegB ∈ nonMaximaSuppression [detNegA, detNegB]
    ∧ strictlyInsideRect detNegA.m_boundingBox detNegB.m_boundingBox = true := by
  refine ⟨?_, ?_, ?_⟩ <;> with_unfolding_all decide

theorem int32_roundtrip (n : ℤ) (h1 : -2147483648 ≤ n) (h2 : n < 2147483648) :
    int32FromBytes (int32ToBytes n) = n := by
  simp only [int32ToBytes, int32FromBytes]
  split <;> omega

theorem int32FromBytes_append (n : ℤ) (rest : List ℕ) :
    int32FromBytes (int32ToBytes n ++ rest) = int32FromBytes (int32ToBytes n) := rfl

theorem int32ToBytes_length (n : ℤ) : (int32ToBytes n).length = 4 := rfl

theorem readInt32_append (n : ℤ) (rest : List ℕ) (h1 : -2147483648 ≤ n)
    (h2 : n < 2147483648) : readInt32 (int32ToBytes n ++ rest) = (n, rest) := by
  unfold readInt32
  refine Prod.ext ?_ ?_
  · show int32FromBytes (int32ToBytes n ++ rest) = n
    rw [int32FromBytes_append]
    exact int32_roundtrip n h1 h2
  · show (int32ToBytes n ++ rest).drop 4 = rest
    have hd := List.drop_left (int32ToBytes n) rest
    rwa [int32ToBytes_length n] at hd

theorem lookup_insertZ_self {β : Type} (k : ℤ) (v : β) (m : List (ℤ × β)) :
    List.lookup k (insertZ k v m) = some v := by
  induction m with
  | nil => simp [insertZ, List.lookup]
  | cons p rest ih =>
      obtain ⟨k2, v2⟩ := p
      unfold insertZ
      by_cases hlt : k < k2
      · rw [if_pos hlt]
        simp [List.lookup]
      · rw [if_neg hlt]
        by_cases heq : k = k2
        · rw [if_pos heq]
          simp [List.lookup]
        · rw [if_neg heq]
          have hne : (k == k2) = false := beq_false_of_ne heq
          simp [List.lookup, hne, ih]

theorem lookup_insertZ_ne {β : Type} (k k2 : ℤ) (v : β) (m : List (ℤ × β))
    (h : k ≠ k2) : List.lookup k (insertZ k2 v m) = List.lookup k m := by
  induction m with
  | nil => simp [insertZ, List.lookup, beq_false_of_ne h]
  | cons p rest ih =>
      obtain ⟨k3, v3⟩ := p
      unfold insertZ
      by_cases hlt : k2 < k3
      · rw [if_pos hlt]
        simp [List.lookup, beq_false_of_ne h]
      · rw [if_neg hlt]
        by_cases heq : k2 = k3
        · rw [if_pos heq]
          subst heq
          simp [List.lookup, beq_false_of_ne h]
        · rw [if_neg heq]
          by_cases hk3 : k = k3
          · subst hk3
            simp [List.lookup]
          · simp [List.lookup, beq_false_of_ne hk3, ih]

theorem lookup_insertQ_self {β : Type} (k : ℚ) (v : β) (m : List (ℚ × β)) :
    List.lookup k (insertQ k v m) = some v := by
  induction m with
  | nil => simp [insertQ, List.lookup]
  | cons p rest ih =>
      obtain ⟨k2, v2⟩ := p
      unfold insertQ
      by_cases hlt : k < k2
      · rw [if_pos hlt]
        simp [List.lookup]
      · rw [if_neg hlt]
        by_cases heq : k = k2
        · rw [if_pos heq]
          simp [List.lookup]
        · rw [if_neg heq]
          have hne : (k == k2) = false := beq_false_of_ne heq
          simp [List.lookup, hne, ih]

theorem lookup_insertQ_ne {β : Type} (k k2 : ℚ) (v : β) (m : List (ℚ × β))
    (h : k ≠ k2) : List.lookup k (insertQ k2 v m) = List.lookup k m := by
  induction m with
  | nil => simp [insertQ, List.lookup, beq_false_of_ne h]
  | cons p rest ih =>
      obtain ⟨k3, v3⟩ := p
      unfold insertQ
      by_cases hlt : k2 < k3
      · rw [if_pos hlt]
        simp [List.lookup, beq_false_of_ne h]
      · rw [if_neg hlt]
        by_cases heq : k2 = k3
        · rw [if_pos heq]
          subst heq
          simp [List.lookup, beq_false_of_ne h]
        · rw [if_neg heq]
          by_cases hk3 : k = k3
          · subst hk3
            simp [List.lookup]
          · simp [List.lookup, beq_false_of_ne hk3, ih]

theorem lookup_infoInsert_self (info : List (ℤ × List (ℚ × Template_info_t))) (id : ℤ)
    (scale : ℚ) (ti : Template_info_t) :
    List.lookup id (infoInsert info id scale ti)
      = some (insertQ scale ti ((List.lookup id info).getD [])) := by
  unfold infoInsert
  cases h : List.lookup id info with
  | none => simp [lookup_insertZ_self]
  | some scales => simp [lookup_insertZ_self]

theorem lookup_infoInsert_ne (info : List (ℤ × List (ℚ × Template_info_t))) (id id2 : ℤ)
    (scale : ℚ) (ti : Template_info_t) (h : id ≠ id2) :
    List.lookup id (infoInsert info id2 scale ti) = List.lookup id info := by
  unfold infoInsert
  cases List.lookup id2 info with
  | none => exact lookup_insertZ_ne id id2 _ _ h
  | some scales => exact lookup_insertZ_ne id id2 _ _ h

theorem readTemplateEntry_record (id : ℤ) (img : CvImage) (tl roi : CvRect)
    (rest : List ℕ) (hid : int32Range id) (himg : imageWF img) (htl : rectWF tl)
    (hroi : rectWF roi) :
    readTemplateEntry (int32ToBytes id ++ (int32ToBytes img.rows ++ (int32ToBytes img.cols
        ++ (int32ToBytes img.channels ++ (img.data ++ (writeRect tl ++ (writeRect roi ++ rest)))))))
      = ({ id := id, img := img, templateLocation := tl, queryROI := roi }, rest) := by
  obtain ⟨hid1, hid2⟩ := hid
  obtain ⟨rows, cols, chans, data⟩ := img
  obtain ⟨hr0, hr1, hc0, hc1, hch, hlen⟩ := himg
  obtain ⟨⟨htlx1, htlx2⟩, ⟨htly1, htly2⟩, ⟨htlw1, htlw2⟩, ⟨htlh1, htlh2⟩⟩ := htl
  obtain ⟨⟨hrx1, hrx2⟩, ⟨hry1, hry2⟩, ⟨hrw1, hrw2⟩, ⟨hrh1, hrh2⟩⟩ := hroi
  dsimp only at hr0 hr1 hc0 hc1 hch hlen ⊢
  have hchle : chans < 2147483648 := by rcases hch with h3 | h3 <;> omega
  have hch0 : -2147483648 ≤ chans := by rcases hch with h3 | h3 <;> omega
  have htake : ∀ X : List ℕ, (data ++ X).take ((rows * cols * chans).toNat) = data := by
    intro X
    rw [← hlen]
    exact List.take_left data X
  have hdrop : ∀ X : List ℕ, (data ++ X).drop ((rows * cols * chans).toNat) = X := by
    intro X
    rw [← hlen]
    exact List.drop_left data X
  simp only [readTemplateEntry, writeRect, List.append_assoc,
    readInt32_append id _ hid1 hid2,
    readInt32_append rows _ (by omega) hr1,
    readInt32_append cols _ (by omega) hc1,
    readInt32_append chans _ hch0 hchle,
    readInt32_append tl.x _ htlx1 htlx2,
    readInt32_append tl.y _ htly1 htly2,
    readInt32_append tl.width _ htlw1 htlw2,
    readInt32_append tl.height _ htlh1 htlh2,
    readInt32_append roi.x _ hrx1 hrx2,
    readInt32_append roi.y _ hry1 hry2,
    readInt32_append roi.width _ hrw1 hrw2,
    readInt32_append roi.height _ hrh1 hrh2,
    htake, hdrop]
  rcases hch with h3 | h3
  · subst h3
    rw [if_neg (by decide)]
    rw [show ((rows * cols * (1 : ℤ)).toNat) = data.length from by rw [hlen]]
    rw [List.take_length]
  · subst h3
    rw [if_pos rfl]
    rw [show ((rows * cols * (3 : ℤ)).toNat) = data.length from by rw [hlen]]
    rw [List.take_length]

theorem readTemplateEntry_entry (images : List (ℤ × CvImage))
    (e : ℤ × List (ℚ × Template_info_t)) (rest : List ℕ) (h : entryWF images e) :
    readTemplateEntry (templateEntryBytes images e ++ rest) = (loadedEntry images e, rest) := by
  obtain ⟨hid, ti, hti, htl, hroi, img, himgl, hwf⟩ := h
  simp only [templateEntryBytes, writeTemplateBody, loadedEntry, hti, himgl]
  have hrec := readTemplateEntry_record e.1 img ti.m_templateLocation ti.m_queryROI rest
    hid hwf htl hroi
  simpa [List.append_assoc] using hrec

theorem loadedEntry_id (images : List (ℤ × CvImage))
    (e : ℤ × List (ℚ × Template_info_t)) : (loadedEntry images e).id = e.1 := by
  unfold loadedEntry
  cases List.lookup (1 : ℚ) e.2 <;> cases List.lookup e.1 images <;> rfl

theorem readTemplates_entries (images : List (ℤ × CvImage)) :
    ∀ (l : List (ℤ × List (ℚ × Template_info_t))) (rest : List ℕ),
    (∀ e ∈ l, entryWF images e) →
    readTemplates l.length (l.flatMap (templateEntryBytes images) ++ rest)
      = l.map (loadedEntry images) := by
  intro l
  induction l with
  | nil => intro rest _; simp [readTemplates]
  | cons e rest2 ih =>
      intro rest h
      have he := h e (List.mem_cons_self _ _)
      simp only [List.flatMap_cons, List.length_cons, List.map_cons]
      rw [List.append_assoc]
      have hstep : ∀ bs, readTemplates (rest2.length + 1) bs
          = (readTemplateEntry bs).1 :: readTemplates rest2.length (readTemplateEntry bs).2 :=
        fun _ => rfl
      rw [hstep, readTemplateEntry_entry images e _ he]
      dsimp only
      rw [ih rest (fun e2 h2 => h e2 (List.mem_cons_of_mem _ h2))]

theorem lookup_scaleSweepInsert_ne (prep : CvImage → Template_info_t)
    (resize : CvImage → ℚ → CvImage) (smin smax sstep : ℚ) (id id2 : ℤ) (img : CvImage)
    (info : List (ℤ × List (ℚ × Template_info_t))) (h : id ≠ id2) :
    List.lookup id (scaleSweepInsert prep resize smin smax sstep id2 img info)
      = List.lookup id info := by
  unfold scaleSweepInsert
  generalize scaleSeqQ smin smax sstep = scales
  induction scales generalizing info with
  | nil => rfl
  | cons sc rest ih =>
      rw [List.foldl_cons, ih]
      by_cases hg : |sc - 1| * 100 > sstep
      · rw [if_pos hg]
        exact lookup_infoInsert_ne _ _ _ _ _ h
      · rw [if_neg hg]

theorem lookup1_scaleSweepInsert_self (prep : CvImage → Template_info_t)
    (resize : CvImage → ℚ → CvImage) (smin smax sstep : ℚ) (id : ℤ) (img : CvImage)
    (base : Template_info_t) (h0 : 0 ≤ sstep) :
    ∀ (info : List (ℤ × List (ℚ × Template_info_t)))
      (scalesE : List (ℚ × Template_info_t)),
    List.lookup id info = some scalesE → List.lookup (1 : ℚ) scalesE = some base →
    ∃ scales2, List.lookup id (scaleSweepInsert prep resize smin smax sstep id img info)
        = some scales2 ∧ List.lookup (1 : ℚ) scales2 = some base := by
  unfold scaleSweepInsert
  generalize scaleSeqQ smin smax sstep = scales
  induction scales with
  | nil => exact fun info scalesE h1 h2 => ⟨scalesE, h1, h2⟩
  | cons sc rest ih =>
      intro info scalesE h1 h2
      rw [List.foldl_cons]
      by_cases hg : |sc - 1| * 100 > sstep
      · rw [if_pos hg]
        have hsc : sc ≠ 1 := by
          intro he
          subst he
          simp at hg
          exact absurd h0 (not_le_of_lt hg)
        apply ih (infoInsert info id sc (prep (resize img sc)))
          (insertQ sc (prep (resize img sc)) scalesE)
        · rw [lookup_infoInsert_self, h1]
          rfl
        · rw [lookup_insertQ_ne 1 sc _ _ (fun he => hsc he.symm), h2]
      · rw [if_neg hg]
        exact ih info scalesE h1 h2

theorem load_fold_preserves (prep : CvImage → Template_info_t)
    (resize : CvImage → ℚ → CvImage) (smin smax sstep : ℚ) (id : ℤ) :
    ∀ (entries : List LoadedTemplate) (acc : MatcherState),
    (∀ e ∈ entries, e.id ≠ id) →
    List.lookup id (entries.foldl (loadTemplateStep prep resize smin smax sstep)
        acc).m_mapOfTemplateImages = List.lookup id acc.m_mapOfTemplateImages
    ∧ List.lookup id (entries.foldl (loadTemplateStep prep resize smin smax sstep)
        acc).m_mapOfTemplate_info = List.lookup id acc.m_mapOfTemplate_info := by
  intro entries
  induction entries with
  | nil => intro acc _; exact ⟨rfl, rfl⟩
  | cons e rest ih =>
      intro acc h
      rw [List.foldl_cons]
      have hne : id ≠ e.id := Ne.symm (h e (List.mem_cons_self _ _))
      obtain ⟨ih1, ih2⟩ := ih (loadTemplateStep prep resize smin smax sstep acc e)
        (fun e2 m => h e2 (List.mem_cons_of_mem _ m))
      refine ⟨?_, ?_⟩
      · rw [ih1]
        unfold loadTemplateStep
        dsimp only
        exact lookup_insertZ_ne id e.id _ _ hne
      · rw [ih2]
        unfold loadTemplateStep
        dsimp only
        rw [lookup_scaleSweepInsert_ne prep resize smin smax sstep id e.id _ _ hne]
        exact lookup_infoInsert_ne _ id e.id _ _ hne

theorem load_fold_lookup (prep : CvImage → Template_info_t)
    (resize : CvImage → ℚ → CvImage) (smin smax sstep : ℚ) (h0 : 0 ≤ sstep) :
    ∀ (entries : List LoadedTemplate) (acc : MatcherState) (e : LoadedTemplate),
    e ∈ entries → (entries.map LoadedTemplate.id).Nodup →
    List.lookup e.id (entries.foldl (loadTemplateStep prep resize smin smax sstep)
        acc).m_mapOfTemplateImages = some e.img
    ∧ ∃ scales2, List.lookup e.id (entries.foldl (loadTemplateStep prep resize smin smax sstep)
          acc).m_mapOfTemplate_info = some scales2
        ∧ ∃ ti2, List.lookup (1 : ℚ) scales2 = some ti2
            ∧ ti2.m_templateLocation = e.templateLocation
            ∧ ti2.m_queryROI = e.queryROI := by
  intro entries
  induction entries with
  | nil => intro acc e he; simp at he
  | cons a rest ih =>
      intro acc e he hnd
      rw [List.foldl_cons]
      simp only [List.map_cons, List.nodup_cons] at hnd
      obtain ⟨hna, hndr⟩ := hnd
      rcases List.mem_cons.mp he with rfl | hm
      · have hids : ∀ e2 ∈ rest, e2.id ≠ e.id := by
          intro e2 m heq
          exact hna (heq ▸ List.mem_map_of_mem _ m)
        obtain ⟨hp1, hp2⟩ := load_fold_preserves prep resize smin smax sstep e.id rest
          (loadTemplateStep prep resize smin smax sstep acc e) hids
        refine ⟨?_, ?_⟩
        · rw [hp1]
          unfold loadTemplateStep
          dsimp only
          exact lookup_insertZ_self _ _ _
        · rw [hp2]
          unfold loadTemplateStep
          dsimp only
          obtain ⟨scales2, hs1, hs2⟩ :=
            lookup1_scaleSweepInsert_self prep resize smin smax sstep e.id e.img
              { prep e.img with
                m_templateLocation := e.templateLocation
                m_queryROI := e.queryROI }
              h0
              (infoInsert acc.m_mapOfTemplate_info e.id 1
                { prep e.img with
                  m_templateLocation := e.templateLocation
                  m_queryROI := e.queryROI })
              (insertQ 1
                { prep e.img with
                  m_templateLocation := e.templateLocation
                  m_queryROI := e.queryROI }
                ((List.lookup e.id acc.m_mapOfTemplate_info).getD []))
              (lookup_infoInsert_self _ _ _ _) (lookup_insertQ_self _ _ _)
          exact ⟨scales2, hs1,
            ⟨{ prep e.img with
               m_templateLocation := e.templateLocation
               m_queryROI := e.queryROI },
             hs2, rfl, rfl⟩⟩
      · exact ih (loadTemplateStep prep resize smin smax sstep acc a) e hm hndr

/-- C6 (amended): saving the template store and loading the resulting
bytes reproduces, for every template id, the stored image
pixel-for-pixel and both rectangles exactly — for collections whose
template images have one or three channels.  The hypotheses state that
restriction together with the rest of the store shape: every entry has
a scale-1 information record and a matching well-formed 8-bit image,
ids are unique 32-bit values, and the scale step is nonnegative.  The
channel restriction is forced by the load path, which reconstructs a
`CV_8UC3` image exactly when the stored channel count is 3 and a
single-channel image otherwise. -/
theorem saveTemplateData_loadTemplateData_roundtrip (prep : CvImage → Template_info_t)
    (resize : CvImage → ℚ → CvImage) (s : MatcherState)
    (hwf : ∀ e ∈ s.m_mapOfTemplate_info, entryWF s.m_mapOfTemplateImages e)
    (hnd : (s.m_mapOfTemplate_info.map Prod.fst).Nodup)
    (hstep : 0 ≤ s.m_scaleStep)
    (hcount : (s.m_mapOfTemplate_info.length : ℤ) < 2147483648) :
    ∀ e ∈ s.m_mapOfTemplate_info, ∀ ti, List.lookup (1 : ℚ) e.2 = some ti →
      List.lookup e.1 (loadTemplateData prep resize (saveTemplateData s)
          s).m_mapOfTemplateImages = List.lookup e.1 s.m_mapOfTemplateImages
      ∧ ∃ scales2, List.lookup e.1 (loadTemplateData prep resize (saveTemplateData s)
            s).m_mapOfTemplate_info = some scales2
          ∧ ∃ ti2, List.lookup (1 : ℚ) scales2 = some ti2
              ∧ ti2.m_templateLocation = ti.m_templateLocation
              ∧ ti2.m_queryROI = ti.m_queryROI := by
  have hparse : loadTemplateData prep resize (saveTemplateData s) s
      = (s.m_mapOfTemplate_info.map (loadedEntry s.m_mapOfTemplateImages)).foldl
          (loadTemplateStep prep resize s.m_scaleMin s.m_scaleMax s.m_scaleStep)
          { s with m_mapOfTemplate_info := [], m_mapOfTemplateImages := [] } := by
    simp only [loadTemplateData, saveTemplateData]
    rw [readInt32_append _ _ (by omega) hcount]
    dsimp only
    rw [show ((s.m_mapOfTemplate_info.length : ℤ)).toNat = s.m_mapOfTemplate_info.length
      from by omega]
    rw [← List.append_nil (s.m_mapOfTemplate_info.flatMap
      (templateEntryBytes s.m_mapOfTemplateImages))]
    rw [readTemplates_entries s.m_mapOfTemplateImages s.m_mapOfTemplate_info [] hwf]
  intro e he ti hti
  obtain ⟨hid, ti0, hti0, htl, hroi, img, himgl, himgwf⟩ := hwf e he
  have htieq : ti0 = ti := by
    rw [hti0] at hti
    exact Option.some.inj hti
  subst htieq
  have hentry : loadedEntry s.m_mapOfTemplateImages e
      = { id := e.1, img := img, templateLocation := ti0.m_templateLocation
          queryROI := ti0.m_queryROI } := by
    unfold loadedEntry
    rw [hti0, himgl]
  have hmem : loadedEntry s.m_mapOfTemplateImages e
      ∈ s.m_mapOfTemplate_info.map (loadedEntry s.m_mapOfTemplateImages) :=
    List.mem_map_of_mem _ he
  have hnd2 : ((s.m_mapOfTemplate_info.map
      (loadedEntry s.m_mapOfTemplateImages)).map LoadedTemplate.id).Nodup := by
    rw [List.map_map]
    have hfun : s.m_mapOfTemplate_info.map
        (LoadedTemplate.id ∘ loadedEntry s.m_mapOfTemplateImages)
        = s.m_mapOfTemplate_info.map Prod.fst :=
      List.map_congr_left (fun e2 _ => loadedEntry_id _ e2)
    rw [hfun]
    exact hnd
  obtain ⟨hl1, scales2, hl2, ti2, hl3, hl4, hl5⟩ :=
    load_fold_lookup prep resize s.m_scaleMin s.m_scaleMax s.m_scaleStep hstep
      (s.m_mapOfTemplate_info.map (loadedEntry s.m_mapOfTemplateImages))
      { s with m_mapOfTemplate_info := [], m_mapOfTemplateImages := [] }
      (loadedEntry s.m_mapOfTemplateImages e) hmem hnd2
  rw [hentry] at hl1 hl2 hl4 hl5
  dsimp only at hl1 hl2 hl4 hl5
  rw [hparse]
  refine ⟨?_, scales2, hl2, ti2, hl3, hl4, hl5⟩
  rw [hl1, himgl]

/-- Witness for `saveTemplateData_loadTemplateData_roundtrip` on a
one-template store: template id 1, a one-pixel image and two
distinctive rectangles survive the round trip. -/
theorem saveLoad_roundtrip_witness :
    List.lookup 1 (loadTemplateData prep0 resize0 (saveTemplateData stateOneTemplate)
        stateOneTemplate).m_mapOfTemplateImages
      = List.lookup 1 stateOneTemplate.m_mapOfTemplateImages
    ∧ ∃ scales2, List.lookup 1 (loadTemplateData prep0 resize0
          (saveTemplateData stateOneTemplate) stateOneTemplate).m_mapOfTemplate_info
        = some scales2
        ∧ ∃ ti2, List.lookup (1 : ℚ) scales2 = some ti2
            ∧ ti2.m_templateLocation = tiRects.m_templateLocation
            ∧ ti2.m_queryROI = tiRects.m_queryROI := by
  have h := saveTemplateData_loadTemplateData_roundtrip prep0 resize0 stateOneTemplate
    ?hwf ?hnd ?hstep ?hcount (1, [(1, tiRects)])
    (show (1, [(1, tiRects)]) ∈ [(1, [(1, tiRects)])] from List.mem_singleton.mpr rfl)
    tiRects rfl
  · exact h
  case hwf =>
    intro e he
    have he2 : e = (1, [(1, tiRects)]) := List.mem_singleton.mp he
    subst he2
    refine ⟨by norm_num [int32Range], tiRects, rfl, ?_, ?_, imgOne, rfl, ?_⟩
    · norm_num [rectWF, int32Range, tiRects, baseTemplate]
    · norm_num [rectWF, int32Range, tiRects, baseTemplate]
    · norm_num [imageWF, imgOne]
  case hnd => simp [stateOneTemplate]
  case hstep => norm_num [stateOneTemplate]
  case hcount => norm_num [stateOneTemplate]

/-- C6 counterexample: a configured collection holding a one-pixel
four-channel template image does not round-trip.  Saving writes the
channel count 4 and the four interleaved bytes, but loading rebuilds
the image with `channels == 3 ? CV_8UC3 : CV_8U`, producing a
single-channel image over the first `rows * cols` bytes of the buffer
— not the original image pixel-for-pixel. -/
theorem saveLoad_roundtrip_4channel_cex :
    List.lookup 1 (loadTemplateData prep0 resize0 (saveTemplateData stateFourChannel)
        stateFourChannel).m_mapOfTemplateImages
      = some { rows := 1, cols := 1, channels := 1, data := [10] }
    ∧ List.lookup 1 stateFourChannel.m_mapOfTemplateImages = some imgFour
    ∧ ({ rows := 1, cols := 1, channels := 1, data := [10] } : CvImage) ≠ imgFour := by
  refine ⟨?_, ?_, ?_⟩ <;> with_unfolding_all decide
